import Mathlib

set_option maxRecDepth 10000

set_option maxHeartbeats 1000000

/-!
Shallow embedding of the Game Boy emulator core (gb.c / gb.h) and proofs of
properties of it.  Machine integers are modelled as `Nat` with explicit
truncation where the C types truncate: `uint8_t` cells truncate modulo 256 at
each store (and the array read truncates as well, so that arbitrary model
states behave like byte arrays), `uint16_t` registers modulo 2 ^ 16, and the
`uint64_t` scheduler counters modulo 2 ^ 64.  Conversions of wider values to
`unsigned _BitInt(1)` keep the low bit only; they are modelled with
`Nat.testBit`.
-/

/-- Graphics mode, from enum graphics_mode in gb.h. -/
inductive GraphicsMode where
  | HBLANK
  | VBLANK
  | SEARCHING
  | TRANSFERRING
deriving DecidableEq

/-- The machine state, a shallow embedding of struct gb from gb.h.  The
65536-byte address space and the 256x256 framebuffer are functions; the eight
button latches (electrical levels, true = released) are a function from the
button index of enum joypad_button. -/
structure GB where
  af : Nat
  bc : Nat
  de : Nat
  hl : Nat
  pc : Nat
  sp : Nat
  ime : Bool
  mem : Nat → Nat
  screen : Nat → Nat → Nat
  cycles_to_wait : Nat
  cycle_count : Nat
  need_to_do_interrupts : Bool
  dot_count : Nat
  graphics_mode : GraphicsMode
  halted : Bool
  buttons_pressed : Nat → Bool
  joypad_mode : Nat

/-- Truncation to 16 bits: the effect of storing a wider value into a
uint16_t (or passing it to a uint16_t parameter). -/
def w16 (x : Nat) : Nat := x % 65536

/-- Truncation to 64 bits: the effect of arithmetic on a uint64_t. -/
def w64 (x : Nat) : Nat := x % 18446744073709551616

/-- Signed reinterpretation of a byte, the C cast (int8_t)x. -/
def sint8 (x : Nat) : Int := if x < 128 then (x : Int) else (x : Int) - 256

/-- A 16-bit store of an Int result (int arithmetic assigned to uint16_t). -/
def w16i (x : Int) : Nat := (x.emod 65536).toNat

/-- Bool to Nat, for building up bit patterns from uint1_t values. -/
def b2n (b : Bool) : Nat := if b then 1 else 0

/-- Store one byte into the address space; cells are uint8_t, so the stored
value is truncated modulo 256. -/
def memUpd (m : Nat → Nat) (a v : Nat) : Nat → Nat :=
  fun x => if x = a then v % 256 else m x

/-- The echo-RAM normalization at the top of read_mem8 from gb.c: addresses
strictly between 0xE000 and 0xFE00 are redirected down by 0x2000. -/
def resolveAddr (addr : Nat) : Nat :=
  if 0xE000 < addr ∧ addr < 0xFE00 then addr - 0x2000 else addr

/-- The synthesized joypad port byte of read_mem8 from gb.c: bits 6-7 set,
bit 4 from joypad_mode being nonzero, rows of active-low button levels
selected by the DIRECTIONS (bit 1) and ACTIONS (bit 0) bits of
joypad_mode. -/
def joypadRead (gb : GB) : Nat :=
  let retval := (0b11 <<< 6) ||| (if gb.joypad_mode ≠ 0 then 0b00010000 else 0)
  let retval := retval |||
    (if gb.joypad_mode.testBit 1 then
      (b2n (gb.buttons_pressed 5) <<< 3) ||| (b2n (gb.buttons_pressed 4) <<< 2) |||
      (b2n (gb.buttons_pressed 6) <<< 1) ||| (b2n (gb.buttons_pressed 7) <<< 0)
    else 0)
  let retval := retval |||
    (if gb.joypad_mode.testBit 0 then
      (b2n (gb.buttons_pressed 2) <<< 3) ||| (b2n (gb.buttons_pressed 3) <<< 2) |||
      (b2n (gb.buttons_pressed 1) <<< 1) ||| (b2n (gb.buttons_pressed 0) <<< 0)
    else 0)
  retval

/-- read_mem8 from gb.c: normalize echo RAM, synthesize the joypad port at
0xFF00, otherwise return the raw backing byte. -/
def read_mem8 (gb : GB) (addr : Nat) : Nat :=
  let addr := resolveAddr addr
  if addr = 0xFF00 then joypadRead gb
  else gb.mem addr % 256

/-- read_mem16 from gb.c: little-endian composition of two byte reads. -/
def read_mem16 (gb : GB) (addr : Nat) : Nat :=
  (read_mem8 gb (w16 (addr + 1)) <<< 8) ||| read_mem8 gb addr

/-- is_writable from gb.c: VRAM through WRAM (0x8000 to 0xDFFF) and OAM
through 0xFFFE.  Echo RAM is not writable here (writes there are dropped). -/
def is_writable (addr : Nat) : Bool :=
  decide ((0x8000 ≤ addr ∧ addr < 0xE000) ∨ (0xFE00 ≤ addr ∧ addr < 0xFFFF))

/-- The body of do_dma's copy loop for indices 0, 1, ..., n-1, in ascending
order (the recursion peels the last iteration).  Each iteration stores
read_mem8 of (src << 8) + i, evaluated in the current state, into OAM + i. -/
def dmaCopy (src : Nat) : Nat → GB → GB
  | 0, gb => gb
  | n + 1, gb =>
    let g := dmaCopy src n gb
    { g with mem := memUpd g.mem (0xFE00 + n) (read_mem8 g (w16 ((src <<< 8) + n))) }

/-- do_dma from gb.c: the CPU owes 160 more cycles, and the 0xA0 bytes from
src << 8 are copied into OAM, bypassing write_mem8. -/
def do_dma (gb : GB) (src : Nat) : GB :=
  let gb := { gb with cycles_to_wait := w64 (gb.cycles_to_wait + 160) }
  dmaCopy src 0xa0 gb

/-- write_mem8 from gb.c.  DIV (0xFF04) stores zero; serial data (0xFF01) is
only echoed to the debug sink; the joypad port keeps its stored low nibble and
sets joypad_mode from bits 4-5 of the value; IF and IE store and flag
need_to_do_interrupts; 0xFF46 triggers OAM DMA; otherwise writable addresses
store the byte and all other writes (ROM, echo, unused) are dropped. -/
def write_mem8 (gb : GB) (addr val : Nat) : GB :=
  if addr = 0xFF04 then
    { gb with mem := memUpd gb.mem addr 0 }
  else if addr = 0xFF01 then
    gb
  else if addr = 0xFF00 then
    { gb with
      mem := memUpd gb.mem addr ((gb.mem addr % 256 &&& 0b1111) ||| (val &&& 0b11110000)),
      joypad_mode := (val >>> 4) &&& 0b11 }
  else if addr = 0xFF0F ∨ addr = 0xFFFF then
    { gb with mem := memUpd gb.mem addr val, need_to_do_interrupts := true }
  else if addr = 0xFF46 then
    do_dma gb val
  else if is_writable addr then
    { gb with mem := memUpd gb.mem addr val }
  else
    gb

/-- write_mem16 from gb.c: little-endian, low byte first. -/
def write_mem16 (gb : GB) (addr val : Nat) : GB :=
  write_mem8 (write_mem8 gb addr val) (w16 (addr + 1)) (val >>> 8)

/-- request_interrupt from gb.c: OR the interrupt bit into IF through
write_mem8 (which also sets need_to_do_interrupts). -/
def request_interrupt (gb : GB) (i : Nat) : GB :=
  write_mem8 gb 0xFF0F (read_mem8 gb 0xFF0F ||| i)

/-- Point update of the button latch array. -/
def btnUpd (f : Nat → Bool) (i : Nat) (v : Bool) : Nat → Bool :=
  fun x => if x = i then v else f x

/-- press_button from gb.c: drive the electrical level low and raise the
joypad interrupt. -/
def press_button (gb : GB) (btn : Nat) : GB :=
  request_interrupt { gb with buttons_pressed := btnUpd gb.buttons_pressed btn false } 0b10000

/-- release_button from gb.c: drive the electrical level high. -/
def release_button (gb : GB) (btn : Nat) : GB :=
  { gb with buttons_pressed := btnUpd gb.buttons_pressed btn true }

/-- Flag bit masks, from enum flag in gb.c. -/
def FL_Z : Nat := 0b10000000

/-- N flag mask. -/
def FL_N : Nat := 0b01000000

/-- H flag mask. -/
def FL_H : Nat := 0b00100000

/-- C flag mask. -/
def FL_C : Nat := 0b00010000

/-- set_flag from gb.c: OR the mask in, or AND it out of the 16-bit AF. -/
def set_flag (gb : GB) (flag : Nat) (value : Bool) : GB :=
  if value then { gb with af := gb.af ||| flag }
  else { gb with af := gb.af &&& (65535 ^^^ flag) }

/-- get_flag from gb.c: whether the flag bit is set in AF. -/
def get_flag (gb : GB) (flag : Nat) : Bool :=
  decide (gb.af &&& flag ≠ 0)

/-- check_cc from gb.c, on the 2-bit condition codes NZ, Z, NC, C. -/
def check_cc (gb : GB) (cc : Nat) : Bool :=
  match cc with
  | 0 => !get_flag gb FL_Z
  | 1 => get_flag gb FL_Z
  | 2 => !get_flag gb FL_C
  | _ => get_flag gb FL_C

/-- Write the high byte of a little-endian 16-bit register pair, as C does
through the byte pointer r_reg returns. -/
def setHi (x v : Nat) : Nat := ((v % 256) <<< 8) ||| (x &&& 255)

/-- Write the low byte of a 16-bit register pair. -/
def setLo (x v : Nat) : Nat := (x &&& 0xFF00) ||| (v % 256)

/-- Read of *r_reg(gb, r) from gb.c: the 3-bit register codes
B=0 C=1 D=2 E=3 H=4 L=5 A=7 select a byte half of a pair (code 6 is invalid
and aborts in the source; here it reads 0 and is never produced by decode). -/
def getR (gb : GB) (r : Nat) : Nat :=
  match r with
  | 0 => (gb.bc >>> 8) &&& 255
  | 1 => gb.bc &&& 255
  | 2 => (gb.de >>> 8) &&& 255
  | 3 => gb.de &&& 255
  | 4 => (gb.hl >>> 8) &&& 255
  | 5 => gb.hl &&& 255
  | 7 => (gb.af >>> 8) &&& 255
  | _ => 0

/-- Store through *r_reg(gb, r) (code 6 is invalid in the source and is the
identity here; decode never produces it). -/
def setR (gb : GB) (r v : Nat) : GB :=
  match r with
  | 0 => { gb with bc := setHi gb.bc v }
  | 1 => { gb with bc := setLo gb.bc v }
  | 2 => { gb with de := setHi gb.de v }
  | 3 => { gb with de := setLo gb.de v }
  | 4 => { gb with hl := setHi gb.hl v }
  | 5 => { gb with hl := setLo gb.hl v }
  | 7 => { gb with af := setHi gb.af v }
  | _ => gb

/-- Read of *dd_reg(gb, dd) from gb.c: BC=0, DE=1, HL=2, SP=3. -/
def getDD (gb : GB) (dd : Nat) : Nat :=
  match dd with
  | 0 => gb.bc
  | 1 => gb.de
  | 2 => gb.hl
  | _ => gb.sp

/-- Store through *dd_reg(gb, dd); stores into a uint16_t. -/
def setDD (gb : GB) (dd v : Nat) : GB :=
  match dd with
  | 0 => { gb with bc := w16 v }
  | 1 => { gb with de := w16 v }
  | 2 => { gb with hl := w16 v }
  | _ => { gb with sp := w16 v }

/-- Read of *qq_reg(gb, qq) from gb.c: BC=0, DE=1, HL=2, AF=3. -/
def getQQ (gb : GB) (qq : Nat) : Nat :=
  match qq with
  | 0 => gb.bc
  | 1 => gb.de
  | 2 => gb.hl
  | _ => gb.af

/-- Store through *qq_reg(gb, qq). -/
def setQQ (gb : GB) (qq v : Nat) : GB :=
  match qq with
  | 0 => { gb with bc := w16 v }
  | 1 => { gb with de := w16 v }
  | 2 => { gb with hl := w16 v }
  | _ => { gb with af := w16 v }

/-- enter_hblank from gb.c: STAT mode bits to 00, graphics mode HBLANK, STAT
interrupt if STAT bit 3 enabled. -/
def enter_hblank (gb : GB) : GB :=
  let gb := { gb with mem := memUpd gb.mem 0xFF41 ((read_mem8 gb 0xFF41 &&& 0b11111100) ||| 0b00) }
  let gb := { gb with graphics_mode := GraphicsMode.HBLANK }
  if read_mem8 gb 0xFF41 &&& 0b00001000 ≠ 0 then request_interrupt gb 0b10 else gb

/-- enter_vblank from gb.c: STAT mode bits to 01, STAT interrupt if STAT bit 4
enabled, VBlank interrupt, graphics mode VBLANK. -/
def enter_vblank (gb : GB) : GB :=
  let gb := { gb with mem := memUpd gb.mem 0xFF41 ((read_mem8 gb 0xFF41 &&& 0b11111100) ||| 0b01) }
  let gb := if read_mem8 gb 0xFF41 &&& 0b00010000 ≠ 0 then request_interrupt gb 0b10 else gb
  let gb := request_interrupt gb 0b1
  { gb with graphics_mode := GraphicsMode.VBLANK }

/-- enter_searching from gb.c: STAT mode bits to 10, graphics mode SEARCHING,
STAT interrupt if STAT bit 5 enabled. -/
def enter_searching (gb : GB) : GB :=
  let gb := { gb with mem := memUpd gb.mem 0xFF41 ((read_mem8 gb 0xFF41 &&& 0b11111100) ||| 0b10) }
  let gb := { gb with graphics_mode := GraphicsMode.SEARCHING }
  if read_mem8 gb 0xFF41 &&& 0b00100000 ≠ 0 then request_interrupt gb 0b10 else gb

/-- enter_transferring from gb.c: OR the STAT mode bits to 11, graphics mode
TRANSFERRING. -/
def enter_transferring (gb : GB) : GB :=
  let gb := { gb with mem := memUpd gb.mem 0xFF41 (read_mem8 gb 0xFF41 ||| 0b11) }
  { gb with graphics_mode := GraphicsMode.TRANSFERRING }

/-- render_tile from gb.c.  For each of the 8 rows (flipped when y_flip) the
two tile bytes at tile_address + 2y (labelled hi) and + 2y + 1 (lo) are
combined; each pixel's 2-bit palette index is bit (14 - x) (masked to 0b10)
OR bit (7 - x) of the combined word; in-bounds pixels that are not
transparent sprite pixels are written through the palette register.  The C
start coordinates are int16_t and every call site passes non-negative values;
screen coordinates are their uint16_t sums. -/
def render_tile (gb : GB) (start_y start_x tile_address palette_address : Nat)
    (is_sprite_tile y_flip x_flip : Bool) : GB :=
  (List.range 8).foldl (fun g i =>
    let curr_y := if y_flip then 7 - i else i
    let tile_data_hi := read_mem8 g (w16 (tile_address + 2 * curr_y))
    let tile_data_lo := read_mem8 g (w16 (tile_address + 2 * curr_y + 1))
    let tile_data := (tile_data_hi <<< 8) ||| tile_data_lo
    (List.range 8).foldl (fun g j =>
      let curr_x := if x_flip then 7 - j else j
      let screen_y := w16 (start_y + curr_y)
      let screen_x := w16 (start_x + curr_x)
      let palette_index := ((tile_data >>> (14 - curr_x)) &&& 0b10) |||
        b2n ((tile_data >>> (7 - curr_x)).testBit 0)
      if screen_y < 32 * 8 ∧ screen_x < 32 * 8 ∧
          (palette_index ≠ 0 ∨ ¬ is_sprite_tile) then
        let color := (read_mem8 g palette_address >>> (2 * palette_index)) &&& 0b11
        { g with screen := fun y x =>
            if y = screen_y ∧ x = screen_x then color else g.screen y x }
      else g) g) gb

/-- render_tilemap from gb.c: render all 0x400 tiles of a 32x32 map, with the
tile data address computed in unsigned (base 0x8000) or signed (base 0x9000)
addressing mode.  The origin parameters are uint8_t. -/
def render_tilemap (gb : GB) (addressing_mode tile_map palette_address origin_y origin_x : Nat) : GB :=
  (List.range 0x400).foldl (fun g i =>
    if addressing_mode = 1 then
      render_tile g (origin_y + (i / 32) * 8) (origin_x + (i % 32) * 8)
        (w16 (0x8000 + read_mem8 g (w16 (tile_map + i)) * 0x10))
        palette_address false false false
    else
      render_tile g (origin_y + (i / 32) * 8) (origin_x + (i % 32) * 8)
        (w16i (0x9000 + sint8 (read_mem8 g (w16 (tile_map + i))) * 0x10))
        palette_address false false false) gb

/-- render_background from gb.c: addressing mode from LCDC bit 4, map from
LCDC bit 3, palette BGP, origin (0, 0). -/
def render_background (gb : GB) : GB :=
  let addressing_mode := b2n ((read_mem8 gb 0xFF40 >>> 4).testBit 0)
  let bg_map_data := if (read_mem8 gb 0xFF40 >>> 3).testBit 0 then 0x9C00 else 0x9800
  render_tilemap gb addressing_mode bg_map_data 0xFF47 0 0

/-- render_window from gb.c: map from LCDC bit 6, origin (WY, WX - 7); the
origin parameters are uint8_t so WX - 7 wraps modulo 256. -/
def render_window (gb : GB) : GB :=
  let addressing_mode := b2n ((read_mem8 gb 0xFF40 >>> 4).testBit 0)
  let win_map_data := if (read_mem8 gb 0xFF40 >>> 6).testBit 0 then 0x9C00 else 0x9800
  render_tilemap gb addressing_mode win_map_data 0xFF47 (read_mem8 gb 0xFF4A)
    ((read_mem8 gb 0xFF4B + 256 - 7) % 256)

/-- render_sprite from gb.c: screen position is (y - 16, x - 8) in uint8_t
arithmetic, tile data at 0x8000 + index, palette OBP1 or OBP0 by attribute
bit 4, flips from attribute bits 5 and 6 (the source passes is_sprite_tile as
0 here). -/
def render_sprite (gb : GB) (sprite_address : Nat) : GB :=
  let y := (read_mem8 gb sprite_address + 256 - 16) % 256
  let x := (read_mem8 gb (w16 (sprite_address + 1)) + 256 - 8) % 256
  let tile_address := w16 (0x8000 + read_mem8 gb (w16 (sprite_address + 2)))
  let attrs := read_mem8 gb (w16 (sprite_address + 3))
  let palette_address := if (attrs >>> 4).testBit 0 then 0xFF49 else 0xFF48
  let x_flip := (attrs >>> 5).testBit 0
  let y_flip := (attrs >>> 6).testBit 0
  render_tile gb y x tile_address palette_address false y_flip x_flip

/-- The loop of render_sprites from gb.c, with the loop counter made explicit:
in 8x16 mode (LCDC bit 2, re-read each iteration) the even-aligned pair is
drawn and the partner sprite is skipped.  The fuel argument bounds the
remaining iterations (40 suffices since i grows each time). -/
def render_sprites_loop : Nat → Nat → GB → GB
  | 0, _, gb => gb
  | fuel + 1, i, gb =>
    if i < 40 then
      let sprite_size := b2n ((read_mem8 gb 0xFF40 >>> 2).testBit 0)
      let sprite_base_address := 0xFE00 + 4 * i
      if sprite_size = 1 then
        let gb := render_sprite gb (sprite_base_address - sprite_base_address % 2)
        let gb := render_sprite gb (sprite_base_address - sprite_base_address % 2 + 1)
        render_sprites_loop fuel (i + 2) gb
      else
        render_sprites_loop fuel (i + 1) (render_sprite gb sprite_base_address)
    else gb

/-- render_sprites from gb.c. -/
def render_sprites (gb : GB) : GB :=
  render_sprites_loop 40 0 gb

/-- The LY / LY=LYC portion of update_screen from gb.c: store the current
line dot_count / 456 into LY through write_mem8, then set STAT bit 2 (raising
the STAT interrupt when STAT bit 6 is enabled) if LY = LYC, else clear it. -/
def update_ly_lyc (gb : GB) : GB :=
  let gb := write_mem8 gb 0xFF44 ((gb.dot_count / 456) % 256)
  if read_mem8 gb 0xFF44 = read_mem8 gb 0xFF45 then
    let gb := write_mem8 gb 0xFF41 (read_mem8 gb 0xFF41 ||| 0b00000100)
    if read_mem8 gb 0xFF41 &&& 0b01000000 ≠ 0 then request_interrupt gb 0b10 else gb
  else
    write_mem8 gb 0xFF41 (read_mem8 gb 0xFF41 &&& 0b11111011)

/-- The VBlank-entry body of update_screen from gb.c: enter_vblank, then
rasterize the whole frame per LCDC (bit 0 background, bit 5 window, bit 1
sprites). -/
def do_vblank (gb : GB) : GB :=
  let gb := enter_vblank gb
  let lcdc := read_mem8 gb 0xFF40
  let gb :=
    if lcdc.testBit 0 then
      let gb := render_background gb
      if (lcdc >>> 5).testBit 0 then render_window gb else gb
    else gb
  if (lcdc >>> 1).testBit 0 then render_sprites gb else gb

/-- update_screen from gb.c: advance the dot counter by 16 modulo 70224,
refresh LY and the LY=LYC STAT bit, and drive the mode machine on edges; on
first entry into VBlank, rasterize the frame. -/
def update_screen (gb : GB) : GB :=
  let gb := { gb with dot_count := w64 (gb.dot_count + 16) % 70224 }
  let gb := update_ly_lyc gb
  if 65664 ≤ gb.dot_count then
    if gb.graphics_mode ≠ GraphicsMode.VBLANK then do_vblank gb else gb
  else if 248 ≤ gb.dot_count % 456 then
    if gb.graphics_mode ≠ GraphicsMode.HBLANK then enter_hblank gb else gb
  else if 80 ≤ gb.dot_count % 456 then
    if gb.graphics_mode ≠ GraphicsMode.TRANSFERRING then enter_transferring gb else gb
  else if gb.dot_count % 456 < 80 then
    if gb.graphics_mode ≠ GraphicsMode.SEARCHING then enter_searching gb else gb
  else gb

/-- The TIMA period in M-cycles computed in wait() from TAC bits 0-1, using
C's truncated remainder (Int.tmod): 1 << ((((tac&3 - 1) tmod 4) + 1) * 2),
stored into a uint8_t.  Note (0 - 1) tmod 4 = -1, so TAC mode 00 yields
1 << 0 = 1, not the 256 the source comment claims. -/
def clocks_per_timer_increment (tac : Nat) : Nat :=
  (1 <<< ((((Int.tmod ((tac &&& 0b11 : Nat) - 1 : Int) 4) + 1) * 2).toNat)) % 256

/-- The DIV prescale of wait()'s loop from gb.c: every 64 cycle_count
increments, store DIV + 1 back through write_mem8 (whose DIV case stores
zero). -/
def wait_div (gb : GB) : GB :=
  if gb.cycle_count % 64 = 0 then
    write_mem8 gb 0xFF04 ((read_mem8 gb 0xFF04 + 1) % 256)
  else gb

/-- The timer tick of wait()'s loop from gb.c: at the TAC-derived period,
when the timer was enabled at wait() entry, an overflowing TIMA (0xFF) is
reloaded from TMA with a timer interrupt, otherwise TIMA is incremented. -/
def wait_timer (timer_enabled : Bool) (gb : GB) : GB :=
  let clocks := clocks_per_timer_increment (read_mem8 gb 0xFF07)
  if timer_enabled ∧ gb.cycle_count % clocks = 0 then
    if read_mem8 gb 0xFF05 = 0xFF then
      request_interrupt (write_mem8 gb 0xFF05 (read_mem8 gb 0xFF06)) 0b100
    else
      write_mem8 gb 0xFF05 ((read_mem8 gb 0xFF05 + 1) % 256)
  else gb

/-- One iteration of wait()'s loop from gb.c: bump cycle_count, pay one owed
cycle, run the DIV prescale and the timer tick, and advance the PPU if LCDC
bit 7 is set. -/
def waitBody (timer_enabled : Bool) (gb : GB) : GB :=
  let gb := { gb with cycle_count := w64 (gb.cycle_count + 1),
                      cycles_to_wait := gb.cycles_to_wait - 1 }
  let gb := wait_div gb
  let gb := wait_timer timer_enabled gb
  if (read_mem8 gb 0xFF40 >>> 7).testBit 0 then update_screen gb else gb

/-- The while loop of wait(), with fuel.  Each iteration decrements
cycles_to_wait by exactly one, so fuel equal to the entry value of
cycles_to_wait drains the loop exactly as the C loop does. -/
def waitLoop (timer_enabled : Bool) : Nat → GB → GB
  | 0, gb => gb
  | fuel + 1, gb =>
    if 0 < gb.cycles_to_wait then waitLoop timer_enabled fuel (waitBody timer_enabled gb)
    else gb

/-- wait from gb.c: latch the timer enable (TAC bit 2) once, then drain the
owed cycles. -/
def wait (gb : GB) : GB :=
  waitLoop ((read_mem8 gb 0xFF07 >>> 2).testBit 0) gb.cycles_to_wait gb

/-- The interrupt selection if-chain of handle_interrupts from gb.c: the
first (highest-priority) interrupt whose bit is set in both the requested
latch and the enable mask, among bits 0-4, as (vector, IF bit mask); the
per-interrupt uint1_t locals of the source are the testBit values here. -/
def irq_pick (interrupts_requested interrupts_enabled : Nat) : Option (Nat × Nat) :=
  if interrupts_requested.testBit 0 ∧ interrupts_enabled.testBit 0 then
    some (0x40, 0b1)
  else if interrupts_requested.testBit 1 ∧ interrupts_enabled.testBit 1 then
    some (0x48, 0b10)
  else if interrupts_requested.testBit 2 ∧ interrupts_enabled.testBit 2 then
    some (0x50, 0b100)
  else if interrupts_requested.testBit 3 ∧ interrupts_enabled.testBit 3 then
    some (0x58, 0b1000)
  else if interrupts_requested.testBit 4 ∧ interrupts_enabled.testBit 4 then
    some (0x60, 0b10000)
  else none

/-- The dispatch body of handle_interrupts from gb.c: clear the selected bit
in IF by a direct store of the originally read value with the bit masked off,
clear IME, push PC at SP - 2 through write_mem16, drop SP by 2, and jump to
the vector. -/
def irq_dispatch (gb : GB) (vec mask interrupts_requested : Nat) : GB :=
  let gb := { gb with mem := memUpd gb.mem 0xFF0F (interrupts_requested &&& (255 ^^^ mask)) }
  let gb := { gb with ime := false }
  let gb := write_mem16 gb (w16 (gb.sp + 65534)) gb.pc
  let gb := { gb with sp := w16 (gb.sp + 65534) }
  { gb with pc := vec }

/-- Apply an optional selected interrupt. -/
def irq_apply (gb : GB) (p : Option (Nat × Nat)) (interrupts_requested : Nat) : GB :=
  match p with
  | none => gb
  | some (vec, mask) => irq_dispatch gb vec mask interrupts_requested

/-- handle_interrupts from gb.c.  Reads IF and IE once; any pending enabled
bit clears HALTED; when IME is clear nothing more happens; otherwise the
highest-priority pending enabled bit among bits 0-4 (VBlank, LCD STAT, Timer,
Serial, Joypad) is dispatched, and in all IME-set cases 5 cycles are owed and
need_to_do_interrupts is cleared. -/
def handle_interrupts (gb : GB) : GB :=
  let interrupts_requested := read_mem8 gb 0xFF0F
  let interrupts_enabled := read_mem8 gb 0xFFFF
  let gb := if interrupts_requested &&& interrupts_enabled ≠ 0 then
              { gb with halted := false } else gb
  if ¬ gb.ime then gb
  else
    let gb := irq_apply gb (irq_pick interrupts_requested interrupts_enabled)
                interrupts_requested
    { gb with cycles_to_wait := w64 (gb.cycles_to_wait + 5),
              need_to_do_interrupts := false }

/-- initialize from gb.c, as init_gb (initialize is a Lean keyword).  mem0 is
the address space right after fread copied the ROM image over it; dot0 is the
dot counter, which initialize never assigns (the struct field is left
indeterminate by the C code), so it is a parameter here.  All listed I/O
registers, the post-boot register file, and the scalar state are set; the
framebuffer is zeroed and all buttons read released. -/
def init_gb (mem0 : Nat → Nat) (dot0 : Nat) : GB :=
  let m := memUpd mem0 0xFF04 0x18
  let m := memUpd m 0xFF05 0x00
  let m := memUpd m 0xFF06 0x00
  let m := memUpd m 0xFF07 0xF8
  let m := memUpd m 0xFF0F 0xE1
  let m := memUpd m 0xFF40 0x91
  let m := memUpd m 0xFF41 0x81
  let m := memUpd m 0xFF42 0x00
  let m := memUpd m 0xFF43 0x00
  let m := memUpd m 0xFF44 0x91
  let m := memUpd m 0xFF45 0x00
  let m := memUpd m 0xFF46 0xFF
  let m := memUpd m 0xFF47 0xFC
  let m := memUpd m 0xFF48 0xFC
  let m := memUpd m 0xFF49 0xFC
  let m := memUpd m 0xFF4A 0x00
  let m := memUpd m 0xFF4B 0x00
  let m := memUpd m 0xFFFF 0x00
  { af := 0x01B0, bc := 0x0013, de := 0x00D8, hl := 0x014D,
    pc := 0x0100, sp := 0xFFFE, ime := false, mem := m,
    screen := fun _ _ => 0, cycles_to_wait := 0, cycle_count := 0,
    need_to_do_interrupts := true, dot_count := dot0,
    graphics_mode := GraphicsMode.SEARCHING, halted := false,
    buttons_pressed := fun _ => true, joypad_mode := 0b11 }

/-- add_a from gb.c: 8-bit add into A with carries detected by comparing the
uint9 / uint5 raw sums against their uint8 / uint4 truncations. -/
def add_a (gb : GB) (operand : Nat) : GB :=
  let raw_result := (getR gb 7 + operand) % 512
  let result := raw_result % 256
  let raw_half_result := ((getR gb 7 &&& 15) + (operand &&& 15)) % 32
  let half_result := raw_half_result % 16
  let gb := set_flag gb FL_C (decide (raw_result ≠ result))
  let gb := set_flag gb FL_H (decide (raw_half_result ≠ half_result))
  let gb := set_flag gb FL_Z (decide (result = 0))
  let gb := set_flag gb FL_N false
  setR gb 7 result

/-- adc_a from gb.c: add_a of the operand, then add_a of the old carry,
ORing the intermediate C and H flags into the final ones. -/
def adc_a (gb : GB) (operand : Nat) : GB :=
  let orig_c_flag := get_flag gb FL_C
  let gb := add_a gb operand
  let inter_c_flag := get_flag gb FL_C
  let inter_h_flag := get_flag gb FL_H
  let gb := add_a gb (b2n orig_c_flag)
  let gb := set_flag gb FL_C (get_flag gb FL_C || inter_c_flag)
  set_flag gb FL_H (get_flag gb FL_H || inter_h_flag)

/-- sub_a from gb.c: 8-bit subtract from A; uint9 and uint5 wrapping
differences are compared against their truncations to detect borrows (the
operand is a uint8_t, below 256, so the offsets added here realize the
two's-complement wrap). -/
def sub_a (gb : GB) (operand : Nat) : GB :=
  let raw_result := (512 + getR gb 7 - operand) % 512
  let result := raw_result % 256
  let raw_half_result := (32 + (getR gb 7 &&& 15) - (operand &&& 15)) % 32
  let half_result := raw_half_result % 16
  let gb := set_flag gb FL_C (decide (raw_result ≠ result))
  let gb := set_flag gb FL_H (decide (raw_half_result ≠ half_result))
  let gb := set_flag gb FL_Z (decide (result = 0))
  let gb := set_flag gb FL_N true
  setR gb 7 result

/-- sbc_a from gb.c. -/
def sbc_a (gb : GB) (operand : Nat) : GB :=
  let orig_c_flag := get_flag gb FL_C
  let gb := sub_a gb operand
  let inter_c_flag := get_flag gb FL_C
  let inter_h_flag := get_flag gb FL_H
  let gb := sub_a gb (b2n orig_c_flag)
  let gb := set_flag gb FL_C (get_flag gb FL_C || inter_c_flag)
  set_flag gb FL_H (get_flag gb FL_H || inter_h_flag)

/-- and_a from gb.c. -/
def and_a (gb : GB) (operand : Nat) : GB :=
  let result := getR gb 7 &&& operand
  let gb := set_flag gb FL_C false
  let gb := set_flag gb FL_H true
  let gb := set_flag gb FL_Z (decide (result = 0))
  let gb := set_flag gb FL_N false
  setR gb 7 result

/-- or_a from gb.c. -/
def or_a (gb : GB) (operand : Nat) : GB :=
  let result := getR gb 7 ||| operand
  let gb := set_flag gb FL_C false
  let gb := set_flag gb FL_H false
  let gb := set_flag gb FL_Z (decide (result = 0))
  let gb := set_flag gb FL_N false
  setR gb 7 result

/-- xor_a from gb.c. -/
def xor_a (gb : GB) (operand : Nat) : GB :=
  let result := getR gb 7 ^^^ operand
  let gb := set_flag gb FL_C false
  let gb := set_flag gb FL_H false
  let gb := set_flag gb FL_Z (decide (result = 0))
  let gb := set_flag gb FL_N false
  setR gb 7 result

/-- cp_a from gb.c: sub_a for the flags, with A restored afterwards. -/
def cp_a (gb : GB) (operand : Nat) : GB :=
  let a := getR gb 7
  let gb := sub_a gb operand
  setR gb 7 a

/-- inc8 from gb.c: flags side effect plus the incremented byte. -/
def inc8 (gb : GB) (operand : Nat) : GB × Nat :=
  let result := (operand + 1) % 256
  let raw_half_result := ((operand &&& 15) + 1) % 32
  let half_result := raw_half_result % 16
  let gb := set_flag gb FL_H (decide (raw_half_result ≠ half_result))
  let gb := set_flag gb FL_Z (decide (result = 0))
  let gb := set_flag gb FL_N false
  (gb, result)

/-- dec8 from gb.c: note H is set from a greater-than comparison of the uint5
wrapped difference against its uint4 truncation. -/
def dec8 (gb : GB) (operand : Nat) : GB × Nat :=
  let result := (operand + 255) % 256
  let raw_half_result := ((operand &&& 15) + 31) % 32
  let half_result := raw_half_result % 16
  let gb := set_flag gb FL_H (decide (half_result < raw_half_result))
  let gb := set_flag gb FL_Z (decide (result = 0))
  let gb := set_flag gb FL_N true
  (gb, result)

/-- Add owed M-cycles (a uint64_t accumulation). -/
def addCycles (gb : GB) (k : Nat) : GB :=
  { gb with cycles_to_wait := w64 (gb.cycles_to_wait + k) }

/-- Advance PC by k (uint16_t). -/
def addPC (gb : GB) (k : Nat) : GB :=
  { gb with pc := w16 (gb.pc + k) }

/-- The low bit of the C int-complement ~x of a non-negative x, as tested by
set_flag's uint1_t parameter: (uint1_t)~x is nonzero exactly when
(-x - 1) mod 2 is.  Used by the BIT instructions. -/
def cNotLowBit (x : Nat) : Bool :=
  decide ((-(x : Int) - 1) % 2 ≠ 0)

/-- One instruction of the LR35902 decoder in step() from gb.c, one
constructor per case group of the switch (the CB-prefixed page included),
carrying the register / condition / bit fields the case body extracts from
the opcode. -/
inductive Instr where
  | ld_r_r (d s : Nat)
  | ld_r_n (d : Nat)
  | ld_r_ihl (d : Nat)
  | ld_ihl_r (s : Nat)
  | ld_ihl_n
  | ld_a_ibc
  | ld_a_ide
  | ld_a_ic
  | ld_ic_a
  | ldh_a_in
  | ldh_in_a
  | ld_a_inn
  | ld_inn_a
  | ld_a_hli
  | ld_a_hld
  | ld_ibc_a
  | ld_ide_a
  | ld_hli_a
  | ld_hld_a
  | ld_dd_nn (dd : Nat)
  | ld_sp_hl
  | push_qq (qq : Nat)
  | pop_qq (qq : Nat)
  | ldhl_sp_e
  | ld_inn_sp
  | add_a_r (s : Nat)
  | add_a_n
  | add_a_ihl
  | adc_a_r (s : Nat)
  | adc_a_n
  | adc_a_ihl
  | sub_a_r (s : Nat)
  | sub_a_n
  | sub_a_ihl
  | sbc_a_r (s : Nat)
  | sbc_a_n
  | sbc_a_ihl
  | and_a_r (s : Nat)
  | and_a_n
  | and_a_ihl
  | or_a_r (s : Nat)
  | or_a_n
  | or_a_ihl
  | xor_a_r (s : Nat)
  | xor_a_n
  | xor_a_ihl
  | cp_a_r (s : Nat)
  | cp_a_n
  | cp_a_ihl
  | inc_r (d : Nat)
  | inc_ihl
  | dec_r (d : Nat)
  | dec_ihl
  | add_hl_dd (dd : Nat)
  | add_sp_e
  | inc_dd (dd : Nat)
  | dec_dd (dd : Nat)
  | rlca
  | rla
  | rrca
  | rra
  | rlc_r (r : Nat)
  | rlc_ihl
  | rrc_r (r : Nat)
  | rrc_ihl
  | rl_r (r : Nat)
  | rl_ihl
  | rr_r (r : Nat)
  | rr_ihl
  | sla_r (r : Nat)
  | sla_ihl
  | sra_r (r : Nat)
  | sra_ihl
  | swap_r (r : Nat)
  | swap_ihl
  | srl_r (r : Nat)
  | srl_ihl
  | bit_b_r (b r : Nat)
  | bit_b_ihl (b : Nat)
  | res_b_r (b r : Nat)
  | res_b_ihl (b : Nat)
  | set_b_r (b r : Nat)
  | set_b_ihl (b : Nat)
  | jp_nn
  | jp_cc (cc : Nat)
  | jr_e
  | jr_cc (cc : Nat)
  | jp_ihl
  | call_nn
  | call_cc (cc : Nat)
  | ret
  | reti
  | ret_cc (cc : Nat)
  | rst (b : Nat)
  | daa
  | cpl
  | nop
  | ccf
  | scf
  | di
  | ei
  | halt
  | stop

/-- The CB-prefixed page of the decoder: the switch on imm8 inside the 0xCB
case of step().  Groups follow the case lists of the source: each row of 8
covers one operation, with low bits 6 selecting the (HL) form. -/
def decodeCB (imm8 : Nat) : Option Instr :=
  if 0x100 ≤ imm8 then none
  else if imm8 < 0x08 ∧ imm8 &&& 7 ≠ 6 then some (.rlc_r (imm8 &&& 7))
  else if imm8 = 0x06 then some .rlc_ihl
  else if 0x08 ≤ imm8 ∧ imm8 < 0x10 ∧ imm8 &&& 7 ≠ 6 then some (.rrc_r (imm8 &&& 7))
  else if imm8 = 0x0E then some .rrc_ihl
  else if 0x10 ≤ imm8 ∧ imm8 < 0x18 ∧ imm8 &&& 7 ≠ 6 then some (.rl_r (imm8 &&& 7))
  else if imm8 = 0x16 then some .rl_ihl
  else if 0x18 ≤ imm8 ∧ imm8 < 0x20 ∧ imm8 &&& 7 ≠ 6 then some (.rr_r (imm8 &&& 7))
  else if imm8 = 0x1E then some .rr_ihl
  else if 0x20 ≤ imm8 ∧ imm8 < 0x28 ∧ imm8 &&& 7 ≠ 6 then some (.sla_r (imm8 &&& 7))
  else if imm8 = 0x26 then some .sla_ihl
  else if 0x28 ≤ imm8 ∧ imm8 < 0x30 ∧ imm8 &&& 7 ≠ 6 then some (.sra_r (imm8 &&& 7))
  else if imm8 = 0x2E then some .sra_ihl
  else if 0x30 ≤ imm8 ∧ imm8 < 0x38 ∧ imm8 &&& 7 ≠ 6 then some (.swap_r (imm8 &&& 7))
  else if imm8 = 0x36 then some .swap_ihl
  else if 0x38 ≤ imm8 ∧ imm8 < 0x40 ∧ imm8 &&& 7 ≠ 6 then some (.srl_r (imm8 &&& 7))
  else if imm8 = 0x3E then some .srl_ihl
  else if 0x40 ≤ imm8 ∧ imm8 < 0x80 ∧ imm8 &&& 7 ≠ 6 then
    some (.bit_b_r ((imm8 >>> 3) &&& 7) (imm8 &&& 7))
  else if 0x40 ≤ imm8 ∧ imm8 < 0x80 then some (.bit_b_ihl ((imm8 >>> 3) &&& 7))
  else if 0x80 ≤ imm8 ∧ imm8 < 0xC0 ∧ imm8 &&& 7 ≠ 6 then
    some (.res_b_r ((imm8 >>> 3) &&& 7) (imm8 &&& 7))
  else if 0x80 ≤ imm8 ∧ imm8 < 0xC0 then some (.res_b_ihl ((imm8 >>> 3) &&& 7))
  else if 0xC0 ≤ imm8 ∧ imm8 &&& 7 ≠ 6 then
    some (.set_b_r ((imm8 >>> 3) &&& 7) (imm8 &&& 7))
  else if 0xC0 ≤ imm8 then some (.set_b_ihl ((imm8 >>> 3) &&& 7))
  else none

/-- The decoder: the case label structure of the giant switch in step() from
gb.c, expressed by the bit patterns its case label groups realize.  The r, dd,
qq, cc, and b fields are the ones the source extracts: upper r is opcode
bits 5-3, lower r bits 2-0, dd and qq bits 5-4, cc bits 4-3, b bits 5-3.
Unrecognized opcode bytes (the default: case, which aborts the process)
decode to none. -/
def decode (opcode imm8 : Nat) : Option Instr :=
  if 0x100 ≤ opcode then none
  -- case 0b01xxxyyy with x, y register codes (neither 6): LD r, r-prime
  else if 0x40 ≤ opcode ∧ opcode < 0x80 ∧ opcode &&& 7 ≠ 6 ∧ (opcode >>> 3) &&& 7 ≠ 6 then
    some (.ld_r_r ((opcode >>> 3) &&& 7) (opcode &&& 7))
  -- case 0b00rrr110, r not 6: LD r, n
  else if opcode < 0x40 ∧ opcode &&& 7 = 6 ∧ (opcode >>> 3) &&& 7 ≠ 6 then
    some (.ld_r_n ((opcode >>> 3) &&& 7))
  -- case 0b01rrr110, r not 6: LD r, (HL)
  else if 0x40 ≤ opcode ∧ opcode < 0x80 ∧ opcode &&& 7 = 6 ∧ (opcode >>> 3) &&& 7 ≠ 6 then
    some (.ld_r_ihl ((opcode >>> 3) &&& 7))
  -- case 0b01110rrr, r not 6: LD (HL), r   (0b01110110 is HALT)
  else if 0x40 ≤ opcode ∧ opcode < 0x80 ∧ (opcode >>> 3) &&& 7 = 6 ∧ opcode &&& 7 ≠ 6 then
    some (.ld_ihl_r (opcode &&& 7))
  else if opcode = 0b00110110 then some .ld_ihl_n
  else if opcode = 0b00001010 then some .ld_a_ibc
  else if opcode = 0b00011010 then some .ld_a_ide
  else if opcode = 0b11110010 then some .ld_a_ic
  else if opcode = 0b11100010 then some .ld_ic_a
  else if opcode = 0b11110000 then some .ldh_a_in
  else if opcode = 0b11100000 then some .ldh_in_a
  else if opcode = 0b11111010 then some .ld_a_inn
  else if opcode = 0b11101010 then some .ld_inn_a
  else if opcode = 0b00101010 then some .ld_a_hli
  else if opcode = 0b00111010 then some .ld_a_hld
  else if opcode = 0b00000010 then some .ld_ibc_a
  else if opcode = 0b00010010 then some .ld_ide_a
  else if opcode = 0b00100010 then some .ld_hli_a
  else if opcode = 0b00110010 then some .ld_hld_a
  -- case 0b00dd0001: LD dd, nn
  else if opcode < 0x40 ∧ opcode &&& 15 = 1 then some (.ld_dd_nn ((opcode >>> 4) &&& 3))
  else if opcode = 0b11111001 then some .ld_sp_hl
  -- case 0b11qq0101: PUSH qq
  else if 0xC0 ≤ opcode ∧ opcode &&& 15 = 5 then some (.push_qq ((opcode >>> 4) &&& 3))
  -- case 0b11qq0001: POP qq
  else if 0xC0 ≤ opcode ∧ opcode &&& 15 = 1 then some (.pop_qq ((opcode >>> 4) &&& 3))
  else if opcode = 0b11111000 then some .ldhl_sp_e
  else if opcode = 0b00001000 then some .ld_inn_sp
  -- case 0b10000rrr, r not 6: ADD A, r
  else if 0x80 ≤ opcode ∧ opcode < 0x88 ∧ opcode &&& 7 ≠ 6 then some (.add_a_r (opcode &&& 7))
  else if opcode = 0b11000110 then some .add_a_n
  else if opcode = 0b10000110 then some .add_a_ihl
  else if 0x88 ≤ opcode ∧ opcode < 0x90 ∧ opcode &&& 7 ≠ 6 then some (.adc_a_r (opcode &&& 7))
  else if opcode = 0b11001110 then some .adc_a_n
  else if opcode = 0b10001110 then some .adc_a_ihl
  else if 0x90 ≤ opcode ∧ opcode < 0x98 ∧ opcode &&& 7 ≠ 6 then some (.sub_a_r (opcode &&& 7))
  else if opcode = 0b11010110 then some .sub_a_n
  else if opcode = 0b10010110 then some .sub_a_ihl
  else if 0x98 ≤ opcode ∧ opcode < 0xA0 ∧ opcode &&& 7 ≠ 6 then some (.sbc_a_r (opcode &&& 7))
  else if opcode = 0b11011110 then some .sbc_a_n
  else if opcode = 0b10011110 then some .sbc_a_ihl
  else if 0xA0 ≤ opcode ∧ opcode < 0xA8 ∧ opcode &&& 7 ≠ 6 then some (.and_a_r (opcode &&& 7))
  else if opcode = 0b11100110 then some .and_a_n
  else if opcode = 0b10100110 then some .and_a_ihl
  else if 0xB0 ≤ opcode ∧ opcode < 0xB8 ∧ opcode &&& 7 ≠ 6 then some (.or_a_r (opcode &&& 7))
  else if opcode = 0b11110110 then some .or_a_n
  else if opcode = 0b10110110 then some .or_a_ihl
  else if 0xA8 ≤ opcode ∧ opcode < 0xB0 ∧ opcode &&& 7 ≠ 6 then some (.xor_a_r (opcode &&& 7))
  else if opcode = 0b11101110 then some .xor_a_n
  else if opcode = 0b10101110 then some .xor_a_ihl
  else if 0xB8 ≤ opcode ∧ opcode < 0xC0 ∧ opcode &&& 7 ≠ 6 then some (.cp_a_r (opcode &&& 7))
  else if opcode = 0b11111110 then some .cp_a_n
  else if opcode = 0b10111110 then some .cp_a_ihl
  -- case 0b00rrr100, r not 6: INC r
  else if opcode < 0x40 ∧ opcode &&& 7 = 4 ∧ (opcode >>> 3) &&& 7 ≠ 6 then
    some (.inc_r ((opcode >>> 3) &&& 7))
  else if opcode = 0b00110100 then some .inc_ihl
  -- case 0b00rrr101, r not 6: DEC r
  else if opcode < 0x40 ∧ opcode &&& 7 = 5 ∧ (opcode >>> 3) &&& 7 ≠ 6 then
    some (.dec_r ((opcode >>> 3) &&& 7))
  else if opcode = 0b00110101 then some .dec_ihl
  -- case 0b00dd1001: ADD HL, dd
  else if opcode < 0x40 ∧ opcode &&& 15 = 9 then some (.add_hl_dd ((opcode >>> 4) &&& 3))
  else if opcode = 0b11101000 then some .add_sp_e
  -- case 0b00dd0011: INC dd
  else if opcode < 0x40 ∧ opcode &&& 15 = 3 then some (.inc_dd ((opcode >>> 4) &&& 3))
  -- case 0b00dd1011: DEC dd
  else if opcode < 0x40 ∧ opcode &&& 15 = 11 then some (.dec_dd ((opcode >>> 4) &&& 3))
  else if opcode = 0b00000111 then some .rlca
  else if opcode = 0b00010111 then some .rla
  else if opcode = 0b00001111 then some .rrca
  else if opcode = 0b00011111 then some .rra
  else if opcode = 0b11001011 then decodeCB imm8
  else if opcode = 0b11000011 then some .jp_nn
  -- case 0b110cc010: JP cc, nn
  else if 0xC0 ≤ opcode ∧ opcode < 0xE0 ∧ opcode &&& 7 = 2 then
    some (.jp_cc ((opcode >>> 3) &&& 3))
  else if opcode = 0b00011000 then some .jr_e
  -- case 0b001cc000: JR cc, e
  else if 0x20 ≤ opcode ∧ opcode < 0x40 ∧ opcode &&& 7 = 0 then
    some (.jr_cc ((opcode >>> 3) &&& 3))
  else if opcode = 0b11101001 then some .jp_ihl
  else if opcode = 0b11001101 then some .call_nn
  -- case 0b110cc100: CALL cc, nn
  else if 0xC0 ≤ opcode ∧ opcode < 0xE0 ∧ opcode &&& 7 = 4 then
    some (.call_cc ((opcode >>> 3) &&& 3))
  else if opcode = 0b11001001 then some .ret
  else if opcode = 0b11011001 then some .reti
  -- case 0b110cc000: RET cc
  else if 0xC0 ≤ opcode ∧ opcode < 0xE0 ∧ opcode &&& 7 = 0 then
    some (.ret_cc ((opcode >>> 3) &&& 3))
  -- case 0b11bbb111: RST b
  else if 0xC0 ≤ opcode ∧ opcode &&& 7 = 7 then some (.rst ((opcode >>> 3) &&& 7))
  else if opcode = 0b00100111 then some .daa
  else if opcode = 0b00101111 then some .cpl
  else if opcode = 0b00000000 then some .nop
  else if opcode = 0b00111111 then some .ccf
  else if opcode = 0b00110111 then some .scf
  else if opcode = 0b11110011 then some .di
  else if opcode = 0b11111011 then some .ei
  else if opcode = 0b01110110 then some .halt
  else if opcode = 0b00010000 then some .stop
  else none

/-- The PUSH qq case body from step(): write the pair little-endian at
SP - 2 through write_mem16, then drop SP by 2; 4 cycles, 1 byte. -/
def op_push (gb : GB) (qq : Nat) : GB :=
  let gb2 := write_mem16 gb (w16 (gb.sp + 65534)) (getQQ gb qq)
  addPC (addCycles { gb2 with sp := w16 (gb2.sp + 65534) } 4) 1

/-- The POP qq case body from step(): load the pair little-endian from SP,
then clear the low nibble of AF (for every qq), then raise SP by 2; 3 cycles,
1 byte. -/
def op_pop (gb : GB) (qq : Nat) : GB :=
  let gb2 := setQQ gb qq ((read_mem8 gb (w16 (gb.sp + 1)) <<< 8) ||| read_mem8 gb gb.sp)
  let gb3 := { gb2 with af := gb2.af &&& 0xfff0 }
  addPC (addCycles { gb3 with sp := w16 (gb3.sp + 2) } 3) 1

/-- The BIT b, r case body from step(): H := 1, N := 0, and Z from the
uint1_t truncation of the int complement ~(reg >> b); 2 cycles, 2 bytes. -/
def op_bit_r (gb : GB) (b r : Nat) : GB :=
  let gb := set_flag gb FL_H true
  let gb := set_flag gb FL_N false
  let gb := set_flag gb FL_Z (cNotLowBit (getR gb r >>> b))
  addPC (addCycles gb 2) 2

/-- The BIT b, (HL) case body from step(): as op_bit_r on the byte at HL;
3 cycles, 2 bytes. -/
def op_bit_ihl (gb : GB) (b : Nat) : GB :=
  let gb := set_flag gb FL_H true
  let gb := set_flag gb FL_N false
  let gb := set_flag gb FL_Z (cNotLowBit (read_mem8 gb gb.hl >>> b))
  addPC (addCycles gb 3) 2

/-- The case bodies of the switch in step() from gb.c, one arm per decoded
instruction, with the cycle and PC bookkeeping exactly as in the source
(including its irregularities, such as ADC adding no cycles and SUB A, (HL)
adding one). -/
def exec2 (gb : GB) (i : Instr) (imm8 imm16 : Nat) : GB :=
  match i with
  | .ld_r_r d s => addPC (addCycles (setR gb d (getR gb s)) 1) 1
  | .ld_r_n d => addPC (addCycles (setR gb d imm8) 2) 2
  | .ld_r_ihl d => addPC (addCycles (setR gb d (read_mem8 gb gb.hl)) 2) 1
  | .ld_ihl_r s => addPC (addCycles (write_mem8 gb gb.hl (getR gb s)) 2) 1
  | .ld_ihl_n => addPC (addCycles (write_mem8 gb gb.hl imm8) 2) 2
  | .ld_a_ibc => addPC (addCycles (setR gb 7 (read_mem8 gb gb.bc)) 2) 1
  | .ld_a_ide => addPC (addCycles (setR gb 7 (read_mem8 gb gb.de)) 2) 1
  | .ld_a_ic => addPC (addCycles (setR gb 7 (read_mem8 gb (0xff00 ||| getR gb 1))) 2) 1
  | .ld_ic_a => addPC (addCycles (write_mem8 gb (0xff00 ||| getR gb 1) (getR gb 7)) 2) 1
  | .ldh_a_in => addPC (addCycles (setR gb 7 (read_mem8 gb (0xff00 ||| imm8))) 3) 2
  | .ldh_in_a => addPC (addCycles (write_mem8 gb (0xff00 ||| imm8) (getR gb 7)) 3) 2
  | .ld_a_inn => addPC (addCycles (setR gb 7 (read_mem8 gb imm16)) 4) 3
  | .ld_inn_a => addPC (addCycles (write_mem8 gb imm16 (getR gb 7)) 4) 3
  | .ld_a_hli =>
    let gb := setR gb 7 (read_mem8 gb gb.hl)
    addPC (addCycles { gb with hl := w16 (gb.hl + 1) } 2) 1
  | .ld_a_hld =>
    let gb := setR gb 7 (read_mem8 gb gb.hl)
    addPC (addCycles { gb with hl := w16 (gb.hl + 65535) } 2) 1
  | .ld_ibc_a => addPC (addCycles (write_mem8 gb gb.bc (getR gb 7)) 2) 1
  | .ld_ide_a => addPC (addCycles (write_mem8 gb gb.de (getR gb 7)) 2) 1
  | .ld_hli_a =>
    let gb := write_mem8 gb gb.hl (getR gb 7)
    addPC (addCycles { gb with hl := w16 (gb.hl + 1) } 2) 1
  | .ld_hld_a =>
    let gb := write_mem8 gb gb.hl (getR gb 7)
    addPC (addCycles { gb with hl := w16 (gb.hl + 65535) } 2) 1
  | .ld_dd_nn dd => addPC (addCycles (setDD gb dd imm16) 3) 3
  | .ld_sp_hl => addPC (addCycles { gb with sp := gb.hl } 2) 1
  | .push_qq qq => op_push gb qq
  | .pop_qq qq => op_pop gb qq
  | .ldhl_sp_e =>
    let raw_byte_result := ((gb.sp &&& 255) + imm8) % 512
    let byte_result := raw_byte_result % 256
    let raw_half_result := ((gb.sp &&& 15) + (imm8 &&& 15)) % 32
    let half_result := raw_half_result % 16
    let gb := set_flag gb FL_H (decide (raw_half_result ≠ half_result))
    let gb := set_flag gb FL_C (decide (raw_byte_result ≠ byte_result))
    let gb := set_flag gb FL_N false
    let gb := set_flag gb FL_Z false
    addPC (addCycles { gb with hl := w16i (gb.sp + sint8 imm8) } 3) 2
  | .ld_inn_sp => addPC (addCycles (write_mem16 gb imm16 gb.sp) 5) 3
  | .add_a_r s => addPC (addCycles (add_a gb (getR gb s)) 1) 1
  | .add_a_n => addPC (addCycles (add_a gb imm8) 2) 2
  | .add_a_ihl => addPC (addCycles (add_a gb (read_mem8 gb gb.hl)) 2) 1
  | .adc_a_r s => addPC (adc_a gb (getR gb s)) 1
  | .adc_a_n => addPC (adc_a gb imm8) 2
  | .adc_a_ihl => addPC (adc_a gb (read_mem8 gb gb.hl)) 1
  | .sub_a_r s => addPC (addCycles (sub_a gb (getR gb s)) 2) 1
  | .sub_a_n => addPC (addCycles (sub_a gb imm8) 2) 2
  | .sub_a_ihl => addPC (addCycles (sub_a gb (read_mem8 gb gb.hl)) 1) 1
  | .sbc_a_r s => addPC (addCycles (sbc_a gb (getR gb s)) 1) 1
  | .sbc_a_n => addPC (addCycles (sbc_a gb imm8) 2) 2
  | .sbc_a_ihl => addPC (addCycles (sbc_a gb (read_mem8 gb gb.hl)) 2) 1
  | .and_a_r s => addPC (addCycles (and_a gb (getR gb s)) 1) 1
  | .and_a_n => addPC (addCycles (and_a gb imm8) 2) 2
  | .and_a_ihl => addPC (addCycles (and_a gb (read_mem8 gb gb.hl)) 2) 1
  | .or_a_r s => addPC (addCycles (or_a gb (getR gb s)) 1) 1
  | .or_a_n => addPC (addCycles (or_a gb imm8) 2) 2
  | .or_a_ihl => addPC (addCycles (or_a gb (read_mem8 gb gb.hl)) 2) 1
  | .xor_a_r s => addPC (addCycles (xor_a gb (getR gb s)) 1) 1
  | .xor_a_n => addPC (addCycles (xor_a gb imm8) 2) 2
  | .xor_a_ihl => addPC (addCycles (xor_a gb (read_mem8 gb gb.hl)) 2) 1
  | .cp_a_r s => addPC (addCycles (cp_a gb (getR gb s)) 1) 1
  | .cp_a_n => addPC (addCycles (cp_a gb imm8) 2) 2
  | .cp_a_ihl => addPC (addCycles (cp_a gb (read_mem8 gb gb.hl)) 2) 1
  | .inc_r d =>
    let p := inc8 gb (getR gb d)
    addPC (addCycles (setR p.1 d p.2) 1) 1
  | .inc_ihl =>
    let p := inc8 gb (read_mem8 gb gb.hl)
    addPC (addCycles (write_mem8 p.1 p.1.hl p.2) 3) 1
  | .dec_r d =>
    let p := dec8 gb (getR gb d)
    addPC (addCycles (setR p.1 d p.2) 1) 1
  | .dec_ihl =>
    let p := dec8 gb (read_mem8 gb gb.hl)
    addPC (addCycles (write_mem8 p.1 p.1.hl p.2) 3) 1
  | .add_hl_dd dd =>
    let raw_result := (gb.hl + getDD gb dd) % 131072
    let result := raw_result % 65536
    let raw_half_result := ((gb.hl &&& 4095) + (getDD gb dd &&& 4095)) % 8192
    let half_result := raw_half_result % 4096
    let gb := set_flag gb FL_H (decide (raw_half_result ≠ half_result))
    let gb := set_flag gb FL_C (decide (raw_result ≠ result))
    let gb := set_flag gb FL_N false
    addPC (addCycles { gb with hl := result } 2) 1
  | .add_sp_e =>
    let raw_byte_result := ((gb.sp &&& 255) + imm8) % 512
    let byte_result := raw_byte_result % 256
    let raw_half_result := ((gb.sp &&& 15) + (imm8 &&& 15)) % 32
    let half_result := raw_half_result % 16
    let gb := set_flag gb FL_H (decide (raw_half_result ≠ half_result))
    let gb := set_flag gb FL_C (decide (raw_byte_result ≠ byte_result))
    let gb := set_flag gb FL_N false
    let gb := set_flag gb FL_Z false
    addPC (addCycles { gb with sp := w16i (gb.sp + sint8 imm8) } 4) 2
  | .inc_dd dd => addPC (addCycles (setDD gb dd (getDD gb dd + 1)) 2) 1
  | .dec_dd dd => addPC (addCycles (setDD gb dd (getDD gb dd + 65535)) 2) 1
  | .rlca =>
    let a := getR gb 7
    let result := ((a <<< 1) ||| (a >>> 7)) % 256
    let gb := set_flag gb FL_C (result.testBit 0)
    let gb := set_flag gb FL_H false
    let gb := set_flag gb FL_N false
    let gb := set_flag gb FL_Z false
    addPC (addCycles (setR gb 7 result) 1) 1
  | .rla =>
    let a := getR gb 7
    let result := ((a <<< 1) ||| b2n (get_flag gb FL_C)) % 256
    let gb := set_flag gb FL_C ((a >>> 7).testBit 0)
    let gb := set_flag gb FL_H false
    let gb := set_flag gb FL_N false
    let gb := set_flag gb FL_Z false
    addPC (addCycles (setR gb 7 result) 1) 1
  | .rrca =>
    let a := getR gb 7
    let result := ((a <<< 7) ||| (a >>> 1)) % 256
    let gb := set_flag gb FL_C (a.testBit 0)
    let gb := set_flag gb FL_H false
    let gb := set_flag gb FL_N false
    let gb := set_flag gb FL_Z false
    addPC (addCycles (setR gb 7 result) 1) 1
  | .rra =>
    let a := getR gb 7
    let result := ((b2n (get_flag gb FL_C) <<< 7) ||| (a >>> 1)) % 256
    let gb := set_flag gb FL_C (a.testBit 0)
    let gb := set_flag gb FL_H false
    let gb := set_flag gb FL_N false
    let gb := set_flag gb FL_Z false
    addPC (addCycles (setR gb 7 result) 1) 1
  | .rlc_r r =>
    let x := getR gb r
    let result := ((x <<< 1) ||| (x >>> 7)) % 256
    let gb := set_flag gb FL_H false
    let gb := set_flag gb FL_N false
    let gb := set_flag gb FL_Z (decide (result = 0))
    let gb := set_flag gb FL_C ((x >>> 7).testBit 0)
    addPC (addCycles (setR gb r result) 2) 2
  | .rlc_ihl =>
    let x := read_mem8 gb gb.hl
    let result := ((x <<< 1) ||| (x >>> 7)) % 256
    let gb := set_flag gb FL_Z (decide (result = 0))
    let gb := set_flag gb FL_H false
    let gb := set_flag gb FL_N false
    let gb := set_flag gb FL_C ((x >>> 7).testBit 0)
    addPC (addCycles (write_mem8 gb gb.hl result) 4) 2
  | .rrc_r r =>
    let x := getR gb r
    let result := ((x <<< 7) ||| (x >>> 1)) % 256
    let gb := set_flag gb FL_C (x.testBit 0)
    let gb := set_flag gb FL_H false
    let gb := set_flag gb FL_N false
    let gb := set_flag gb FL_Z (decide (result = 0))
    addPC (addCycles (setR gb r result) 2) 2
  | .rrc_ihl =>
    let x := read_mem8 gb gb.hl
    let result := ((x <<< 7) ||| (x >>> 1)) % 256
    let gb := set_flag gb FL_C (x.testBit 0)
    let gb := set_flag gb FL_H false
    let gb := set_flag gb FL_N false
    let gb := set_flag gb FL_Z (decide (result = 0))
    addPC (addCycles (write_mem8 gb gb.hl result) 4) 2
  | .rl_r r =>
    let x := getR gb r
    let result := ((x <<< 1) ||| b2n (get_flag gb FL_C)) % 256
    let gb := set_flag gb FL_H false
    let gb := set_flag gb FL_N false
    let gb := set_flag gb FL_Z (decide (result = 0))
    let gb := set_flag gb FL_C ((x >>> 7).testBit 0)
    addPC (addCycles (setR gb r result) 2) 2
  | .rl_ihl =>
    let x := read_mem8 gb gb.hl
    let result := ((x <<< 1) ||| b2n (get_flag gb FL_C)) % 256
    let gb := set_flag gb FL_H false
    let gb := set_flag gb FL_N false
    let gb := set_flag gb FL_Z (decide (result = 0))
    let gb := set_flag gb FL_C ((x >>> 7).testBit 0)
    addPC (addCycles (write_mem8 gb gb.hl result) 4) 2
  | .rr_r r =>
    let x := getR gb r
    let result := ((b2n (get_flag gb FL_C) <<< 7) ||| (x >>> 1)) % 256
    let gb := set_flag gb FL_H false
    let gb := set_flag gb FL_N false
    let gb := set_flag gb FL_Z (decide (result = 0))
    let gb := set_flag gb FL_C (x.testBit 0)
    addPC (addCycles (setR gb r result) 2) 2
  | .rr_ihl =>
    let curr := read_mem8 gb gb.hl
    let result := ((b2n (get_flag gb FL_C) <<< 7) ||| (curr >>> 1)) % 256
    let gb := set_flag gb FL_H false
    let gb := set_flag gb FL_N false
    let gb := set_flag gb FL_Z (decide (result = 0))
    let gb := set_flag gb FL_C (curr.testBit 0)
    addPC (addCycles (write_mem8 gb gb.hl result) 4) 2
  | .sla_r r =>
    let x := getR gb r
    let result := (x <<< 1) % 256
    let gb := set_flag gb FL_H false
    let gb := set_flag gb FL_N false
    let gb := set_flag gb FL_Z (decide (result = 0))
    let gb := set_flag gb FL_C ((x >>> 7).testBit 0)
    addPC (addCycles (setR gb r result) 2) 2
  | .sla_ihl =>
    let x := read_mem8 gb gb.hl
    let result := (x <<< 1) % 256
    let gb := set_flag gb FL_H false
    let gb := set_flag gb FL_N false
    let gb := set_flag gb FL_Z (decide (result = 0))
    let gb := set_flag gb FL_C ((x >>> 7).testBit 0)
    addPC (addCycles (write_mem8 gb gb.hl result) 4) 2
  | .sra_r r =>
    let x := getR gb r
    let result := (x &&& 0b10000000) ||| (x >>> 1)
    let gb := set_flag gb FL_H false
    let gb := set_flag gb FL_N false
    let gb := set_flag gb FL_Z (decide (result = 0))
    let gb := set_flag gb FL_C (x.testBit 0)
    addPC (addCycles (setR gb r result) 2) 2
  | .sra_ihl =>
    let x := read_mem8 gb gb.hl
    let result := (x &&& 0b10000000) ||| (x >>> 1)
    let gb := set_flag gb FL_H false
    let gb := set_flag gb FL_N false
    let gb := set_flag gb FL_Z (decide (result = 0))
    let gb := set_flag gb FL_C (x.testBit 0)
    addPC (addCycles (write_mem8 gb gb.hl result) 4) 2
  | .swap_r r =>
    let x := getR gb r
    let result := ((x <<< 4) ||| (x >>> 4)) % 256
    let gb := set_flag gb FL_C false
    let gb := set_flag gb FL_H false
    let gb := set_flag gb FL_N false
    let gb := set_flag gb FL_Z (decide (result = 0))
    addPC (addCycles (setR gb r result) 2) 2
  | .swap_ihl =>
    let x := read_mem8 gb gb.hl
    let result := ((x <<< 4) ||| (x >>> 4)) % 256
    let gb := set_flag gb FL_C false
    let gb := set_flag gb FL_H false
    let gb := set_flag gb FL_N false
    let gb := set_flag gb FL_Z (decide (result = 0))
    addPC (addCycles (write_mem8 gb gb.hl result) 4) 2
  | .srl_r r =>
    let x := getR gb r
    let result := x >>> 1
    let gb := set_flag gb FL_C (x.testBit 0)
    let gb := set_flag gb FL_H false
    let gb := set_flag gb FL_N false
    let gb := set_flag gb FL_Z (decide (result = 0))
    addPC (addCycles (setR gb r result) 2) 2
  | .srl_ihl =>
    let x := read_mem8 gb gb.hl
    let result := x >>> 1
    let gb := set_flag gb FL_C (x.testBit 0)
    let gb := set_flag gb FL_H false
    let gb := set_flag gb FL_N false
    let gb := set_flag gb FL_Z (decide (result = 0))
    addPC (addCycles (write_mem8 gb gb.hl result) 4) 2
  | .bit_b_r b r => op_bit_r gb b r
  | .bit_b_ihl b => op_bit_ihl gb b
  | .res_b_r b r => addPC (addCycles (setR gb r (getR gb r &&& (255 ^^^ (1 <<< b)))) 2) 2
  | .res_b_ihl b =>
    addPC (addCycles (write_mem8 gb gb.hl (read_mem8 gb gb.hl &&& (255 ^^^ (1 <<< b)))) 4) 2
  | .set_b_r b r => addPC (addCycles (setR gb r (getR gb r ||| (1 <<< b))) 2) 2
  | .set_b_ihl b =>
    addPC (addCycles (write_mem8 gb gb.hl (read_mem8 gb gb.hl ||| (1 <<< b))) 4) 2
  | .jp_nn => addCycles { gb with pc := imm16 } 4
  | .jp_cc cc =>
    if check_cc gb cc then addCycles { gb with pc := imm16 } 4
    else addPC (addCycles gb 3) 3
  | .jr_e => addCycles { gb with pc := w16i (gb.pc + sint8 imm8 + 2) } 3
  | .jr_cc cc =>
    if check_cc gb cc then addCycles { gb with pc := w16i (gb.pc + sint8 imm8 + 2) } 3
    else addPC (addCycles gb 2) 2
  | .jp_ihl => addCycles { gb with pc := gb.hl } 1
  | .call_nn =>
    let gb := { gb with sp := w16 (gb.sp + 65534) }
    let gb := write_mem16 gb gb.sp (w16 (gb.pc + 3))
    addCycles { gb with pc := imm16 } 6
  | .call_cc cc =>
    if check_cc gb cc then
      let gb := { gb with sp := w16 (gb.sp + 65534) }
      let gb := write_mem16 gb gb.sp (w16 (gb.pc + 3))
      addCycles { gb with pc := imm16 } 6
    else addCycles (addPC gb 3) 3
  | .ret =>
    let gb := { gb with pc := read_mem16 gb gb.sp }
    addCycles { gb with sp := w16 (gb.sp + 2) } 4
  | .reti =>
    let gb := { gb with pc := read_mem16 gb gb.sp }
    let gb := { gb with sp := w16 (gb.sp + 2) }
    addCycles { gb with ime := true, need_to_do_interrupts := true } 4
  | .ret_cc cc =>
    if check_cc gb cc then
      let gb := { gb with pc := read_mem16 gb gb.sp }
      addCycles { gb with sp := w16 (gb.sp + 2) } 5
    else addCycles (addPC gb 1) 2
  | .rst b =>
    let gb := write_mem16 gb (w16 (gb.sp + 65534)) (w16 (gb.pc + 1))
    let gb := { gb with sp := w16 (gb.sp + 65534) }
    addCycles { gb with pc := b * 8 } 4
  | .daa =>
    let c_contents := get_flag gb FL_C
    let h_contents := get_flag gb FL_H
    let n_contents := get_flag gb FL_N
    let a_contents := getR gb 7
    let addend : Int :=
      if n_contents then
        (if c_contents then -0x60 else 0) + (if h_contents then -0x6 else 0)
      else
        (if c_contents ∨ 0x99 < a_contents then 0x60 else 0) +
        (if h_contents ∨ 0x9 < (a_contents &&& 0b1111) then 0x6 else 0)
    let carry := if n_contents then c_contents
                 else (c_contents || decide (0x99 < a_contents))
    let gb := set_flag gb FL_C carry
    let gb := set_flag gb FL_H false
    let gb := setR gb 7 (((a_contents : Int) + addend).emod 256).toNat
    let gb := set_flag gb FL_Z (decide (getR gb 7 = 0))
    addPC (addCycles gb 1) 1
  | .cpl =>
    let gb := setR gb 7 (255 ^^^ getR gb 7)
    let gb := set_flag gb FL_H true
    let gb := set_flag gb FL_N true
    addPC (addCycles gb 1) 1
  | .nop => addPC (addCycles gb 1) 1
  | .ccf =>
    let gb := set_flag gb FL_C (!get_flag gb FL_C)
    let gb := set_flag gb FL_H false
    let gb := set_flag gb FL_N false
    addPC (addCycles gb 1) 1
  | .scf =>
    let gb := set_flag gb FL_C true
    let gb := set_flag gb FL_H false
    let gb := set_flag gb FL_N false
    addPC (addCycles gb 1) 1
  | .di => addPC (addCycles { gb with ime := false } 1) 1
  | .ei => addPC (addCycles { gb with ime := true, need_to_do_interrupts := true } 1) 1
  | .halt => addPC (addCycles { gb with halted := true } 1) 1
  | .stop =>
    let gb := write_mem8 gb 0xFF04 0
    addPC (addCycles { gb with halted := true } 1) 2

/-- The halted branch of step() from gb.c: with no owed cycles, owe one; then
handle interrupts if flagged; nothing else runs. -/
def haltedStep (gb : GB) : GB :=
  let gb := if gb.cycles_to_wait = 0 then { gb with cycles_to_wait := w64 (gb.cycles_to_wait + 1) }
            else gb
  if gb.need_to_do_interrupts then handle_interrupts gb else gb

/-- The tail of step() from gb.c: after the switch, handle interrupts if
flagged. -/
def postStep (gb : GB) : GB :=
  if gb.need_to_do_interrupts then handle_interrupts gb else gb

/-- step from gb.c: fetch the opcode and immediates at PC, take the halted
short path if HALTED, otherwise decode and execute; an unrecognized opcode
aborts the process in the source and yields none here. -/
def step (gb : GB) : Option GB :=
  let opcode := read_mem8 gb gb.pc
  let imm8 := read_mem8 gb (w16 (gb.pc + 1))
  let imm16 := read_mem16 gb (w16 (gb.pc + 1))
  if gb.halted then some (haltedStep gb)
  else
    match decode opcode imm8 with
    | none => none
    | some i => some (postStep (exec2 gb i imm8 imm16))

/-- A baseline concrete machine state used to build the witness and
counterexample states below: all registers and memory zero, not halted, IME
off, all buttons released. -/
def baseGB : GB :=
  { af := 0, bc := 0, de := 0, hl := 0, pc := 0x100, sp := 0xFFFE, ime := false,
    mem := fun _ => 0, screen := fun _ _ => 0, cycles_to_wait := 0, cycle_count := 0,
    need_to_do_interrupts := false, dot_count := 0,
    graphics_mode := GraphicsMode.SEARCHING, halted := false,
    buttons_pressed := fun _ => true, joypad_mode := 0b11 }

/-- Witness state for the invariant claims: halted with one owed cycle. -/
def wS1 : GB := { baseGB with halted := true, cycles_to_wait := 1 }

/-- Memory with only the Timer interrupt requested and enabled. -/
def memTimerIrq : Nat → Nat :=
  fun a => if a = 0xFF0F then 0b100 else if a = 0xFFFF then 0b100 else 0

/-- Witness state for interrupt dispatch: IME on, Timer requested and
enabled, PC 0x2000. -/
def wS2 : GB := { baseGB with ime := true, pc := 0x2000, mem := memTimerIrq }

/-- The DIV-claim failing state: 64 owed cycles, DIV reads 5, TAC 0xF8
(timer disabled), LCDC 0 (PPU off). -/
def fS3mem : Nat → Nat :=
  fun a => if a = 0xFF04 then 5 else if a = 0xFF07 then 0xF8 else 0

/-- The DIV-claim failing state. -/
def fS3 : GB := { baseGB with cycles_to_wait := 64, mem := fS3mem }

/-- The TIMA-claim failing state: one owed cycle, TAC 0x04 (enabled, rate
bits 00), TIMA 0, LCDC 0. -/
def fS4mem : Nat → Nat := fun a => if a = 0xFF07 then 0x04 else 0

/-- The TIMA-claim failing state. -/
def fS4 : GB := { baseGB with cycles_to_wait := 1, mem := fS4mem }

/-- A loaded address space whose bytes at 0xC000 and 0xE000 differ. -/
def cS5mem : Nat → Nat := fun a => if a = 0xC000 then 1 else 0

/-- The post-initialize state over cS5mem, for the echo counterexample. -/
def cS5 : GB := init_gb cS5mem 0

/-- Witness state for the DMA claim: bytes 7, 8, ... at 0xC000. -/
def wS6mem : Nat → Nat :=
  fun a => if 0xC000 ≤ a ∧ a < 0xC100 then (a - 0xC000 + 7) % 256 else 0

/-- Witness state for the DMA claim. -/
def wS6 : GB := { baseGB with mem := wS6mem }

/-- Witness state for the BIT claim: A = 0b100, HL pointing at a RAM byte
0b100. -/
def wS7mem : Nat → Nat := fun a => if a = 0xC000 then 0b100 else 0

/-- Witness state for the BIT claim. -/
def wS7 : GB := { baseGB with af := 0x0400, hl := 0xC000, mem := wS7mem }

/-- Witness state for the PUSH/POP round trip: registers loaded, SP in
WRAM. -/
def wS8 : GB :=
  { baseGB with af := 0x1230, bc := 0x2345, de := 0x3456, hl := 0x4567, sp := 0xD000 }

/-- Counterexample state for the PUSH/POP round trip: SP points into ROM, so
the pushed bytes are dropped. -/
def cS8 : GB := { baseGB with bc := 0x1234, sp := 0x0102 }

/-- Witness state for dispatch without a pending enabled interrupt: IME on,
IF and IE sharing only bit 7 (not an interrupt bit). -/
def wS9mem : Nat → Nat :=
  fun a => if a = 0xFF0F then 0b10000000 else if a = 0xFFFF then 0b10000000 else 0

/-- Witness state for dispatch without a pending enabled interrupt. -/
def wS9 : GB := { baseGB with ime := true, mem := wS9mem }

/-- Modelled from the spec: the claimed interrupt selection, choosing the
highest-priority set bit of the pending word IF AND IE in the fixed order
VBlank, LCD STAT, Timer, Serial, Joypad with vectors 0x40, 0x48, 0x50, 0x58,
0x60, written from the claim text for comparison with the source's
irq_pick. -/
def specPick (pending : Nat) : Nat × Nat :=
  if pending.testBit 0 then (0x40, 0b1)
  else if pending.testBit 1 then (0x48, 0b10)
  else if pending.testBit 2 then (0x50, 0b100)
  else if pending.testBit 3 then (0x58, 0b1000)
  else (0x60, 0b10000)

/-- Modelled from the spec: the claimed dispatch, written from the claim
text: select the highest-priority pending enabled bit, clear that bit in IF,
clear IME, push the old PC little-endian at SP - 2 (dropping SP by 2), jump
to the vector, owe 5 more cycles, clear need_to_do_interrupts, and clear
HALTED. -/
def specDispatch (gb : GB) : GB :=
  let requested := read_mem8 gb 0xFF0F
  let enabled := read_mem8 gb 0xFFFF
  let p := specPick (requested &&& enabled)
  let pushed := write_mem16
    { gb with halted := false, ime := false,
              mem := memUpd gb.mem 0xFF0F (requested &&& (255 ^^^ p.2)) }
    (w16 (gb.sp + 65534)) gb.pc
  { pushed with sp := w16 (gb.sp + 65534), pc := p.1,
                cycles_to_wait := w64 (pushed.cycles_to_wait + 5),
                need_to_do_interrupts := false }

/-- Addresses whose write_mem8 stores the byte verbatim and whose read_mem8
returns the raw backing byte: the VRAM-to-WRAM range, or the OAM-to-IE range
excluding the special-cased I/O ports 0xFF00 (joypad), 0xFF01 (serial),
0xFF04 (DIV) and 0xFF46 (OAM DMA). -/
def okAddr (a : Nat) : Prop :=
  (0x8000 ≤ a ∧ a < 0xE000) ∨
  (0xFE00 ≤ a ∧ a ≤ 0xFFFF ∧ a ≠ 0xFF00 ∧ a ≠ 0xFF01 ∧ a ≠ 0xFF04 ∧ a ≠ 0xFF46)

/-- Machine-representable register file: every 16-bit register below
2 ^ 16 (automatic in the C struct, a hypothesis on the model's Nat
fields). -/
def Wf16 (gb : GB) : Prop :=
  gb.af < 65536 ∧ gb.bc < 65536 ∧ gb.de < 65536 ∧ gb.hl < 65536 ∧
  gb.sp < 65536 ∧ gb.pc < 65536

/-- Witness state for the halted fast path: halted, two owed cycles, no
interrupt work flagged. -/
def wS10 : GB := { baseGB with halted := true, cycles_to_wait := 2 }

/-- Bitwise OR commutes with truncation to a power of two. -/
lemma or_mod_two_pow (x y n : Nat) : (x ||| y) % 2 ^ n = x % 2 ^ n ||| y % 2 ^ n := by
  apply Nat.eq_of_testBit_eq
  intro i
  simp only [Nat.testBit_mod_two_pow, Nat.testBit_or]
  by_cases h : i < n <;> simp [h]

/-- Bitwise AND commutes with truncation to a power of two. -/
lemma and_mod_two_pow (x y n : Nat) : (x &&& y) % 2 ^ n = x % 2 ^ n &&& y % 2 ^ n := by
  apply Nat.eq_of_testBit_eq
  intro i
  simp only [Nat.testBit_mod_two_pow, Nat.testBit_and]
  by_cases h : i < n <;> simp [h]

/-- Bitwise XOR commutes with truncation to a power of two. -/
lemma xor_mod_two_pow (x y n : Nat) : (x ^^^ y) % 2 ^ n = x % 2 ^ n ^^^ y % 2 ^ n := by
  apply Nat.eq_of_testBit_eq
  intro i
  simp only [Nat.testBit_mod_two_pow, Nat.testBit_xor]
  by_cases h : i < n <;> simp [h]

/-- OR distributes over the low nibble. -/
lemma or_mod16 (x y : Nat) : (x ||| y) % 16 = x % 16 ||| y % 16 := by
  have h := or_mod_two_pow x y 4
  norm_num at h
  exact h

/-- AND distributes over the low nibble. -/
lemma and_mod16 (x y : Nat) : (x &&& y) % 16 = x % 16 &&& y % 16 := by
  have h := and_mod_two_pow x y 4
  norm_num at h
  exact h

/-- Left shift by a byte clears the low nibble. -/
lemma shiftLeft8_mod16 (x : Nat) : (x <<< 8) % 16 = 0 := by
  rw [Nat.shiftLeft_eq]
  omega

/-- Masking with 15 is reduction modulo 16. -/
lemma and15_eq_mod16 (x : Nat) : x &&& 15 = x % 16 := by
  apply Nat.eq_of_testBit_eq
  intro i
  have h16 : (16 : Nat) = 2 ^ 4 := by norm_num
  have h15 : (15 : Nat) = 2 ^ 4 - 1 := by norm_num
  rw [h16, Nat.testBit_mod_two_pow, h15, Nat.testBit_and, Nat.testBit_two_pow_sub_one]
  by_cases h : i < 4 <;> simp [h]

/-- Masking with 255 is reduction modulo 256. -/
lemma and255_eq_mod256 (x : Nat) : x &&& 255 = x % 256 := by
  apply Nat.eq_of_testBit_eq
  intro i
  have h1 : (256 : Nat) = 2 ^ 8 := by norm_num
  have h2 : (255 : Nat) = 2 ^ 8 - 1 := by norm_num
  rw [h1, Nat.testBit_mod_two_pow, h2, Nat.testBit_and, Nat.testBit_two_pow_sub_one]
  by_cases h : i < 8 <;> simp [h]

/-- The low and high bytes of a value recombine to the value itself. -/
lemma hi_lo_recombine (x : Nat) : ((x >>> 8) <<< 8) ||| (x % 256) = x := by
  apply Nat.eq_of_testBit_eq
  intro i
  have h256 : (256 : Nat) = 2 ^ 8 := by norm_num
  simp only [Nat.testBit_or, Nat.testBit_shiftLeft, Nat.testBit_shiftRight, h256,
    Nat.testBit_mod_two_pow]
  by_cases h : 8 ≤ i
  · have h2 : 8 + (i - 8) = i := by omega
    simp [h, h2, Nat.not_lt.mpr h, ge_iff_le]
  · simp [h, Nat.lt_of_not_le h, ge_iff_le]

/-- A fold whose body preserves AF preserves AF. -/
lemma foldl_af {α : Type} {f : GB → α → GB} (h : ∀ g x, (f g x).af = g.af) :
    ∀ (l : List α) (g : GB), (l.foldl f g).af = g.af := by
  intro l
  induction l with
  | nil => intro g; rfl
  | cons a t ih => intro g; simp only [List.foldl_cons]; rw [ih, h]


/-- Both branches of an ite agreeing on AF give its AF. -/
lemma ite_af_eq {c : Prop} [Decidable c] {A B : GB} {x : Nat}
    (hA : A.af = x) (hB : B.af = x) : (ite c A B).af = x := by
  split <;> assumption

/-- The DMA copy loop only writes memory: AF is untouched. -/
lemma dmaCopy_af (src : Nat) : ∀ (n : Nat) (gb : GB), (dmaCopy src n gb).af = gb.af := by
  intro n
  induction n with
  | zero => intro gb; rfl
  | succ k ih => intro gb; simp only [dmaCopy]; exact ih gb

/-- do_dma only adds cycles and writes memory: AF is untouched. -/
lemma do_dma_af (gb : GB) (src : Nat) : (do_dma gb src).af = gb.af := by
  simp only [do_dma]
  rw [dmaCopy_af]

/-- write_mem8 never touches AF. -/
lemma write_mem8_af (gb : GB) (a v : Nat) : (write_mem8 gb a v).af = gb.af := by
  rw [write_mem8]
  split
  · rfl
  split
  · rfl
  split
  · rfl
  split
  · rfl
  split
  · exact do_dma_af gb v
  split
  · rfl
  rfl

/-- write_mem16 never touches AF. -/
lemma write_mem16_af (gb : GB) (a v : Nat) : (write_mem16 gb a v).af = gb.af := by
  rw [write_mem16, write_mem8_af, write_mem8_af]

/-- request_interrupt never touches AF. -/
lemma request_interrupt_af (gb : GB) (i : Nat) : (request_interrupt gb i).af = gb.af := by
  rw [request_interrupt, write_mem8_af]

/-- enter_hblank never touches AF. -/
lemma enter_hblank_af (gb : GB) : (enter_hblank gb).af = gb.af := by
  rw [enter_hblank]
  exact ite_af_eq (request_interrupt_af _ _) rfl

/-- enter_vblank never touches AF. -/
lemma enter_vblank_af (gb : GB) : (enter_vblank gb).af = gb.af := by
  rw [enter_vblank]
  dsimp only
  rw [request_interrupt_af]
  exact ite_af_eq (request_interrupt_af _ _) rfl

/-- enter_searching never touches AF. -/
lemma enter_searching_af (gb : GB) : (enter_searching gb).af = gb.af := by
  rw [enter_searching]
  exact ite_af_eq (request_interrupt_af _ _) rfl

/-- enter_transferring never touches AF. -/
lemma enter_transferring_af (gb : GB) : (enter_transferring gb).af = gb.af := by
  rw [enter_transferring]

/-- render_tile only writes the framebuffer: AF is untouched. -/
lemma render_tile_af (gb : GB) (sy sx ta pa : Nat) (isp yf xf : Bool) :
    (render_tile gb sy sx ta pa isp yf xf).af = gb.af := by
  unfold render_tile
  refine foldl_af ?_ _ _
  intro g i
  refine foldl_af ?_ _ _
  intro g2 j
  exact ite_af_eq rfl rfl

/-- render_tilemap never touches AF. -/
lemma render_tilemap_af (gb : GB) (am tm pa oy ox : Nat) :
    (render_tilemap gb am tm pa oy ox).af = gb.af := by
  unfold render_tilemap
  refine foldl_af ?_ _ _
  intro g i
  exact ite_af_eq (render_tile_af _ _ _ _ _ _ _ _) (render_tile_af _ _ _ _ _ _ _ _)

/-- render_background never touches AF. -/
lemma render_background_af (gb : GB) : (render_background gb).af = gb.af := by
  rw [render_background, render_tilemap_af]

/-- render_window never touches AF. -/
lemma render_window_af (gb : GB) : (render_window gb).af = gb.af := by
  rw [render_window, render_tilemap_af]

/-- render_sprite never touches AF. -/
lemma render_sprite_af (gb : GB) (sa : Nat) : (render_sprite gb sa).af = gb.af := by
  rw [render_sprite, render_tile_af]

/-- The sprite loop never touches AF. -/
lemma render_sprites_loop_af : ∀ (fuel i : Nat) (gb : GB),
    (render_sprites_loop fuel i gb).af = gb.af := by
  intro fuel
  induction fuel with
  | zero => intro i gb; rfl
  | succ k ih =>
    intro i gb
    rw [render_sprites_loop]
    refine ite_af_eq ?_ rfl
    dsimp only
    refine ite_af_eq ?_ ?_
    · rw [ih, render_sprite_af, render_sprite_af]
    · rw [ih, render_sprite_af]

/-- render_sprites never touches AF. -/
lemma render_sprites_af (gb : GB) : (render_sprites gb).af = gb.af := by
  rw [render_sprites, render_sprites_loop_af]

/-- The LY / LYC refresh never touches AF. -/
lemma update_ly_lyc_af (gb : GB) : (update_ly_lyc gb).af = gb.af := by
  rw [update_ly_lyc]
  dsimp only
  refine ite_af_eq ?_ ?_
  · exact ite_af_eq (by rw [request_interrupt_af, write_mem8_af, write_mem8_af])
      (by rw [write_mem8_af, write_mem8_af])
  · rw [write_mem8_af, write_mem8_af]

/-- The VBlank rasterization never touches AF. -/
lemma do_vblank_af (gb : GB) : (do_vblank gb).af = gb.af := by
  rw [do_vblank]
  dsimp only
  refine ite_af_eq ?_ ?_
  · rw [render_sprites_af]
    refine ite_af_eq ?_ (enter_vblank_af gb)
    exact ite_af_eq (by rw [render_window_af, render_background_af, enter_vblank_af])
      (by rw [render_background_af, enter_vblank_af])
  · refine ite_af_eq ?_ (enter_vblank_af gb)
    exact ite_af_eq (by rw [render_window_af, render_background_af, enter_vblank_af])
      (by rw [render_background_af, enter_vblank_af])

/-- update_screen never touches AF. -/
lemma update_screen_af (gb : GB) : (update_screen gb).af = gb.af := by
  rw [update_screen]
  refine ite_af_eq ?_ ?_
  · exact ite_af_eq (by rw [do_vblank_af, update_ly_lyc_af]) (update_ly_lyc_af _)
  refine ite_af_eq ?_ ?_
  · exact ite_af_eq (by rw [enter_hblank_af, update_ly_lyc_af]) (update_ly_lyc_af _)
  refine ite_af_eq ?_ ?_
  · exact ite_af_eq (by rw [enter_transferring_af, update_ly_lyc_af]) (update_ly_lyc_af _)
  refine ite_af_eq ?_ (update_ly_lyc_af _)
  exact ite_af_eq (by rw [enter_searching_af, update_ly_lyc_af]) (update_ly_lyc_af _)

/-- The DIV prescale never touches AF. -/
lemma wait_div_af (gb : GB) : (wait_div gb).af = gb.af := by
  rw [wait_div]
  exact ite_af_eq (write_mem8_af _ _ _) rfl

/-- The timer tick never touches AF. -/
lemma wait_timer_af (te : Bool) (gb : GB) : (wait_timer te gb).af = gb.af := by
  rw [wait_timer]
  refine ite_af_eq ?_ rfl
  refine ite_af_eq ?_ (write_mem8_af _ _ _)
  rw [request_interrupt_af, write_mem8_af]

/-- One wait iteration never touches AF. -/
lemma waitBody_af (te : Bool) (gb : GB) : (waitBody te gb).af = gb.af := by
  rw [waitBody]
  refine ite_af_eq ?_ ?_
  · rw [update_screen_af, wait_timer_af, wait_div_af]
  · rw [wait_timer_af, wait_div_af]

/-- The wait loop never touches AF. -/
lemma waitLoop_af (te : Bool) : ∀ (fuel : Nat) (gb : GB), (waitLoop te fuel gb).af = gb.af := by
  intro fuel
  induction fuel with
  | zero => intro gb; rfl
  | succ k ih =>
    intro gb
    rw [waitLoop]
    refine ite_af_eq ?_ rfl
    rw [ih, waitBody_af]

/-- wait never touches AF. -/
lemma wait_af (gb : GB) : (wait gb).af = gb.af := by
  rw [wait, waitLoop_af]

/-- The interrupt dispatch body never touches AF. -/
lemma irq_dispatch_af (gb : GB) (vec mask ir : Nat) :
    (irq_dispatch gb vec mask ir).af = gb.af := by
  rw [irq_dispatch]
  dsimp only
  rw [write_mem16_af]

/-- Applying an optional interrupt never touches AF. -/
lemma irq_apply_af (gb : GB) (p : Option (Nat × Nat)) (ir : Nat) :
    (irq_apply gb p ir).af = gb.af := by
  match p with
  | none => rfl
  | some (vec, mask) => exact irq_dispatch_af gb vec mask ir

/-- handle_interrupts never touches AF. -/
lemma handle_interrupts_af (gb : GB) : (handle_interrupts gb).af = gb.af := by
  rw [handle_interrupts]
  refine ite_af_eq (ite_af_eq rfl rfl) ?_
  show (irq_apply _ _ _).af = gb.af
  rw [irq_apply_af]
  exact ite_af_eq rfl rfl

/-- XOR distributes over the low nibble. -/
lemma xor_mod16 (x y : Nat) : (x ^^^ y) % 16 = x % 16 ^^^ y % 16 := by
  have h := xor_mod_two_pow x y 4
  norm_num at h
  exact h

/-- Writing a byte into the high half of a register pair preserves the low
nibble. -/
lemma setHi_mod16 (x v : Nat) : setHi x v % 16 = x % 16 := by
  rw [setHi, or_mod16, shiftLeft8_mod16, and255_eq_mod256, Nat.zero_or,
    Nat.mod_mod_of_dvd x (by norm_num : (16 : Nat) ∣ 256)]

/-- set_flag with a mask whose low nibble is clear preserves AF's low
nibble. -/
lemma set_flag_mod16 (gb : GB) (f : Nat) (v : Bool) (hf : f % 16 = 0) :
    (set_flag gb f v).af % 16 = gb.af % 16 := by
  rw [set_flag]
  split
  · show (gb.af ||| f) % 16 = gb.af % 16
    rw [or_mod16, hf, Nat.or_zero]
  · show (gb.af &&& (65535 ^^^ f)) % 16 = gb.af % 16
    rw [and_mod16, xor_mod16, hf]
    norm_num
    rw [and15_eq_mod16, Nat.mod_mod_of_dvd _ (dvd_refl 16)]

/-- The Z flag mask stays out of the low nibble. -/
lemma set_flag_Z_mod16 (gb : GB) (v : Bool) :
    (set_flag gb FL_Z v).af % 16 = gb.af % 16 := set_flag_mod16 gb FL_Z v (by decide)

/-- The N flag mask stays out of the low nibble. -/
lemma set_flag_N_mod16 (gb : GB) (v : Bool) :
    (set_flag gb FL_N v).af % 16 = gb.af % 16 := set_flag_mod16 gb FL_N v (by decide)

/-- The H flag mask stays out of the low nibble. -/
lemma set_flag_H_mod16 (gb : GB) (v : Bool) :
    (set_flag gb FL_H v).af % 16 = gb.af % 16 := set_flag_mod16 gb FL_H v (by decide)

/-- The C flag mask stays out of the low nibble. -/
lemma set_flag_C_mod16 (gb : GB) (v : Bool) :
    (set_flag gb FL_C v).af % 16 = gb.af % 16 := set_flag_mod16 gb FL_C v (by decide)

/-- Byte register stores preserve AF's low nibble (A lives in the high
byte). -/
lemma setR_mod16 (gb : GB) (r v : Nat) : (setR gb r v).af % 16 = gb.af % 16 := by
  unfold setR
  split
  · rfl
  · rfl
  · rfl
  · rfl
  · rfl
  · rfl
  · exact setHi_mod16 gb.af v
  · rfl

/-- 16-bit register stores through dd codes never touch AF. -/
lemma setDD_af (gb : GB) (dd v : Nat) : (setDD gb dd v).af = gb.af := by
  unfold setDD
  split <;> rfl

/-- addCycles never touches AF. -/
lemma addCycles_af (gb : GB) (k : Nat) : (addCycles gb k).af = gb.af := rfl

/-- addPC never touches AF. -/
lemma addPC_af (gb : GB) (k : Nat) : (addPC gb k).af = gb.af := rfl

/-- add_a preserves AF's low nibble. -/
lemma add_a_mod16 (gb : GB) (op : Nat) : (add_a gb op).af % 16 = gb.af % 16 := by
  simp only [add_a, setR_mod16, set_flag_Z_mod16, set_flag_N_mod16, set_flag_H_mod16,
    set_flag_C_mod16]

/-- adc_a preserves AF's low nibble. -/
lemma adc_a_mod16 (gb : GB) (op : Nat) : (adc_a gb op).af % 16 = gb.af % 16 := by
  simp only [adc_a, add_a_mod16, set_flag_H_mod16, set_flag_C_mod16]

/-- sub_a preserves AF's low nibble. -/
lemma sub_a_mod16 (gb : GB) (op : Nat) : (sub_a gb op).af % 16 = gb.af % 16 := by
  simp only [sub_a, setR_mod16, set_flag_Z_mod16, set_flag_N_mod16, set_flag_H_mod16,
    set_flag_C_mod16]

/-- sbc_a preserves AF's low nibble. -/
lemma sbc_a_mod16 (gb : GB) (op : Nat) : (sbc_a gb op).af % 16 = gb.af % 16 := by
  simp only [sbc_a, sub_a_mod16, set_flag_H_mod16, set_flag_C_mod16]

/-- and_a preserves AF's low nibble. -/
lemma and_a_mod16 (gb : GB) (op : Nat) : (and_a gb op).af % 16 = gb.af % 16 := by
  simp only [and_a, setR_mod16, set_flag_Z_mod16, set_flag_N_mod16, set_flag_H_mod16,
    set_flag_C_mod16]

/-- or_a preserves AF's low nibble. -/
lemma or_a_mod16 (gb : GB) (op : Nat) : (or_a gb op).af % 16 = gb.af % 16 := by
  simp only [or_a, setR_mod16, set_flag_Z_mod16, set_flag_N_mod16, set_flag_H_mod16,
    set_flag_C_mod16]

/-- xor_a preserves AF's low nibble. -/
lemma xor_a_mod16 (gb : GB) (op : Nat) : (xor_a gb op).af % 16 = gb.af % 16 := by
  simp only [xor_a, setR_mod16, set_flag_Z_mod16, set_flag_N_mod16, set_flag_H_mod16,
    set_flag_C_mod16]

/-- cp_a preserves AF's low nibble. -/
lemma cp_a_mod16 (gb : GB) (op : Nat) : (cp_a gb op).af % 16 = gb.af % 16 := by
  simp only [cp_a, setR_mod16, sub_a_mod16]

/-- inc8 preserves AF's low nibble. -/
lemma inc8_mod16 (gb : GB) (op : Nat) : (inc8 gb op).1.af % 16 = gb.af % 16 := by
  simp only [inc8, set_flag_Z_mod16, set_flag_N_mod16, set_flag_H_mod16]

/-- dec8 preserves AF's low nibble. -/
lemma dec8_mod16 (gb : GB) (op : Nat) : (dec8 gb op).1.af % 16 = gb.af % 16 := by
  simp only [dec8, set_flag_Z_mod16, set_flag_N_mod16, set_flag_H_mod16]

/-- op_push preserves AF's low nibble (it never touches AF). -/
lemma op_push_af (gb : GB) (qq : Nat) : (op_push gb qq).af = gb.af := by
  simp only [op_push, addPC, addCycles]
  rw [write_mem16_af]

/-- op_pop leaves AF's low nibble clear, for every qq. -/
lemma op_pop_mod16 (gb : GB) (qq : Nat) : (op_pop gb qq).af % 16 = 0 := by
  simp only [op_pop, addPC, addCycles]
  rw [and_mod16]
  norm_num

/-- op_bit_r preserves AF's low nibble. -/
lemma op_bit_r_mod16 (gb : GB) (b r : Nat) : (op_bit_r gb b r).af % 16 = gb.af % 16 := by
  simp only [op_bit_r, addPC_af, addCycles_af, set_flag_Z_mod16, set_flag_N_mod16,
    set_flag_H_mod16]

/-- op_bit_ihl preserves AF's low nibble. -/
lemma op_bit_ihl_mod16 (gb : GB) (b : Nat) : (op_bit_ihl gb b).af % 16 = gb.af % 16 := by
  simp only [op_bit_ihl, addPC_af, addCycles_af, set_flag_Z_mod16, set_flag_N_mod16,
    set_flag_H_mod16]

/-- Every instruction body preserves a clear low nibble of AF. -/
lemma exec2_mod16 (gb : GB) (i : Instr) (imm8 imm16 : Nat) (h : gb.af % 16 = 0) :
    (exec2 gb i imm8 imm16).af % 16 = 0 := by
  cases i <;>
    first
    | (simp only [exec2, addPC_af, addCycles_af, setR_mod16, setDD_af, set_flag_Z_mod16,
        set_flag_N_mod16, set_flag_H_mod16, set_flag_C_mod16, add_a_mod16, adc_a_mod16,
        sub_a_mod16, sbc_a_mod16, and_a_mod16, or_a_mod16, xor_a_mod16, cp_a_mod16,
        inc8_mod16, dec8_mod16, op_push_af, op_pop_mod16, op_bit_r_mod16, op_bit_ihl_mod16,
        write_mem8_af, write_mem16_af, h]
       done)
    | (simp only [exec2]
       split <;>
         simp only [addPC_af, addCycles_af, write_mem8_af, write_mem16_af, h])

/-- The halted branch of step never touches AF. -/
lemma haltedStep_af (gb : GB) : (haltedStep gb).af = gb.af := by
  rw [haltedStep]
  refine ite_af_eq ?_ ?_
  · rw [handle_interrupts_af]
    exact ite_af_eq rfl rfl
  · exact ite_af_eq rfl rfl

/-- The interrupt check after the switch never touches AF. -/
lemma postStep_af (gb : GB) : (postStep gb).af = gb.af := by
  rw [postStep]
  exact ite_af_eq (handle_interrupts_af gb) rfl

/-- Executed steps preserve a clear low nibble of AF. -/
lemma step_mod16 (gb gb2 : GB) (h : gb.af % 16 = 0) (hs : step gb = some gb2) :
    gb2.af % 16 = 0 := by
  rw [step] at hs
  split at hs
  · cases hs
    rw [haltedStep_af]
    exact h
  · split at hs
    · cases hs
    · next i heq =>
      cases hs
      rw [postStep_af]
      exact exec2_mod16 gb i _ _ h

/-- press_button never touches AF. -/
lemma press_button_af (gb : GB) (btn : Nat) : (press_button gb btn).af = gb.af := by
  rw [press_button, request_interrupt_af]

/-- C1: the low 4 bits of the F register (the low byte of AF) are zero after
initialize(), and every operation preserves that: any step() that executes
(including POP AF, DAA, and every flag-setting instruction), wait(),
press_button(), and release_button() map a state with AF's low nibble clear
to a state with AF's low nibble clear. -/
theorem c1_low_nibble_invariant :
    (∀ (mem0 : Nat → Nat) (dot0 : Nat), (init_gb mem0 dot0).af % 16 = 0) ∧
    (∀ (gb gb2 : GB), gb.af % 16 = 0 → step gb = some gb2 → gb2.af % 16 = 0) ∧
    (∀ gb : GB, gb.af % 16 = 0 → (wait gb).af % 16 = 0) ∧
    (∀ (gb : GB) (btn : Nat), gb.af % 16 = 0 → (press_button gb btn).af % 16 = 0) ∧
    (∀ (gb : GB) (btn : Nat), gb.af % 16 = 0 → (release_button gb btn).af % 16 = 0) := by
  refine ⟨fun mem0 dot0 => by simp [init_gb], step_mod16, ?_, ?_, ?_⟩
  · intro gb h
    rw [wait_af]
    exact h
  · intro gb btn h
    rw [press_button_af]
    exact h
  · intro gb btn h
    exact h

/-- Witness for C1 at concrete inputs: the initial state, and a halted state
stepping to itself. -/
theorem c1_low_nibble_invariant_witness :
    (init_gb (fun _ => 0) 0).af % 16 = 0 ∧
    step wS1 = some wS1 ∧
    wS1.af % 16 = 0 ∧
    (wait wS1).af % 16 = 0 ∧
    (press_button wS1 0).af % 16 = 0 ∧
    (release_button wS1 0).af % 16 = 0 :=
  ⟨c1_low_nibble_invariant.1 (fun _ => 0) 0,
   rfl,
   c1_low_nibble_invariant.2.1 wS1 wS1 (by decide) rfl,
   c1_low_nibble_invariant.2.2.1 wS1 (by decide),
   c1_low_nibble_invariant.2.2.2.1 wS1 0 (by decide),
   c1_low_nibble_invariant.2.2.2.2 wS1 0 (by decide)⟩

/-- An OR of Nats is zero only when both are. -/
lemma nat_or_eq_zero (x y : Nat) : x ||| y = 0 ↔ x = 0 ∧ y = 0 := by
  constructor
  · intro h
    constructor <;>
      · apply Nat.eq_of_testBit_eq
        intro i
        have hbit := congrArg (fun t => t.testBit i) h
        simp [Nat.testBit_or] at hbit
        simp [hbit.1, hbit.2]
  · rintro ⟨h1, h2⟩
    simp [h1, h2]

/-- AND distributes over OR on Nats. -/
lemma nat_or_and (a b c : Nat) : (a ||| b) &&& c = (a &&& c) ||| (b &&& c) := by
  apply Nat.eq_of_testBit_eq
  intro i
  simp [Nat.testBit_or, Nat.testBit_and, Bool.and_or_distrib_right]

/-- Reading a flag just set reads the written value (for a real single-bit
mask). -/
lemma get_flag_set_same (gb : GB) (f : Nat) (v : Bool) (h1 : f ≠ 0)
    (h2 : (65535 ^^^ f) &&& f = 0) : get_flag (set_flag gb f v) f = v := by
  rw [set_flag]
  cases v
  · simp only [Bool.false_eq_true, if_false, get_flag]
    rw [Nat.and_assoc, h2, Nat.and_zero]
    simp
  · simp only [if_true, get_flag]
    rw [nat_or_and, Nat.and_self]
    simp [nat_or_eq_zero, h1]

/-- Setting one flag leaves another flag's read unchanged (for disjoint
masks). -/
lemma get_flag_set_other (gb : GB) (f g : Nat) (v : Bool) (hfg : f &&& g = 0)
    (hmg : (65535 ^^^ f) &&& g = g) : get_flag (set_flag gb f v) g = get_flag gb g := by
  rw [set_flag]
  cases v
  · simp only [Bool.false_eq_true, if_false, get_flag]
    rw [Nat.and_assoc, hmg]
  · simp only [if_true, get_flag]
    rw [nat_or_and, hfg, Nat.or_zero]

/-- The uint1_t truncation of the int complement is the negated low bit. -/
lemma cNotLowBit_eq (x : Nat) : cNotLowBit x = !x.testBit 0 := by
  rw [cNotLowBit, Nat.testBit_zero]
  rcases Nat.mod_two_eq_zero_or_one x with h | h
  · have h2 : (-(x : Int) - 1) % 2 = 1 := by omega
    simp [h, h2]
  · have h2 : (-(x : Int) - 1) % 2 = 0 := by omega
    simp [h, h2]

/-- Flag writes never disturb a byte register read: the flag masks live in
the low byte of AF and A is its high byte. -/
lemma getR_set_flag (gb : GB) (f : Nat) (v : Bool) (r : Nat) (hf : f < 256) :
    getR (set_flag gb f v) r = getR gb r := by
  rw [set_flag]
  cases v
  · simp only [Bool.false_eq_true, if_false]
    unfold getR
    split <;> try rfl
    apply Nat.eq_of_testBit_eq
    intro i
    simp only [Nat.testBit_and, Nat.testBit_shiftRight]
    by_cases hi : i < 8
    · have hm : (65535 ^^^ f).testBit (8 + i) = true := by
        rw [Nat.testBit_xor]
        have h16 : (65535 : Nat) = 2 ^ 16 - 1 := by norm_num
        rw [h16, Nat.testBit_two_pow_sub_one,
          Nat.testBit_lt_two_pow (lt_of_lt_of_le hf (by
            calc (256 : Nat) = 2 ^ 8 := by norm_num
            _ ≤ 2 ^ (8 + i) := Nat.pow_le_pow_right (by norm_num) (by omega)))]
        simp
        omega
      simp [hm]
    · have h255 : (255 : Nat).testBit i = false := by
        have h8 : (255 : Nat) = 2 ^ 8 - 1 := by norm_num
        rw [h8, Nat.testBit_two_pow_sub_one]
        simp
        omega
      simp [h255]
  · simp only [if_true]
    unfold getR
    split <;> try rfl
    apply Nat.eq_of_testBit_eq
    intro i
    simp only [Nat.testBit_and, Nat.testBit_shiftRight, Nat.testBit_or]
    have hfb : f.testBit (8 + i) = false :=
      Nat.testBit_lt_two_pow (lt_of_lt_of_le hf (by
            calc (256 : Nat) = 2 ^ 8 := by norm_num
            _ ≤ 2 ^ (8 + i) := Nat.pow_le_pow_right (by norm_num) (by omega)))
    simp [hfb]

/-- Flag writes never disturb HL. -/
lemma set_flag_hl (gb : GB) (f : Nat) (v : Bool) : (set_flag gb f v).hl = gb.hl := by
  rw [set_flag]
  split <;> rfl

/-- Flag writes never disturb a memory read. -/
lemma read_mem8_set_flag (gb : GB) (f : Nat) (v : Bool) (a : Nat) :
    read_mem8 (set_flag gb f v) a = read_mem8 gb a := by
  rw [set_flag]
  split <;> rfl

/-- C10: a step taken while halted, with owed cycles remaining and no
interrupt work flagged, changes nothing at all: step returns the state
unmodified (registers, the whole address space, the framebuffer, and every
scheduler counter included). -/
theorem c10_halted_noop (gb : GB) (h1 : gb.halted = true) (h2 : 0 < gb.cycles_to_wait)
    (h3 : gb.need_to_do_interrupts = false) : step gb = some gb := by
  have h2x : ¬ gb.cycles_to_wait = 0 := by omega
  simp [step, haltedStep, h1, h2x, h3]

/-- Witness for C10 at a concrete halted state. -/
theorem c10_halted_noop_witness :
    (wS10.halted = true ∧ 0 < wS10.cycles_to_wait ∧ wS10.need_to_do_interrupts = false) ∧
    step wS10 = some wS10 :=
  ⟨by decide, c10_halted_noop wS10 (by decide) (by decide) (by decide)⟩

/-- C5 (amended): for every state and every address strictly between 0xE000
and 0xFE00, reading the address returns the same byte as reading the address
0x2000 lower; at exactly 0xE000 the source does not redirect the read, so
the original claim's closed lower bound fails (see the counterexample). -/
theorem c5_echo_read (gb : GB) (addr : Nat) (h1 : 0xE000 < addr) (h2 : addr < 0xFE00) :
    read_mem8 gb addr = read_mem8 gb (addr - 0x2000) := by
  have hc : 0xE000 < addr ∧ addr < 0xFE00 := ⟨h1, h2⟩
  have hc2 : ¬ (0xE000 < addr - 0x2000 ∧ addr - 0x2000 < 0xFE00) := by omega
  have hj : ¬ (addr - 0x2000 = 0xFF00) := by omega
  simp only [read_mem8, resolveAddr, if_pos hc, if_neg hc2, if_neg hj]

/-- Witness for C5 (amended) at a concrete state and address. -/
theorem c5_echo_read_witness :
    (0xE000 < 0xE001 ∧ 0xE001 < 0xFE00) ∧
    read_mem8 baseGB 0xE001 = read_mem8 baseGB (0xE001 - 0x2000) :=
  ⟨by decide, c5_echo_read baseGB 0xE001 (by decide) (by decide)⟩

/-- Counterexample to C5 as stated: immediately after initialize() over a
64 KiB image whose bytes at 0xC000 and 0xE000 differ, reading 0xE000 does
not return the byte at 0xC000 (the echo redirect is strict at 0xE000). -/
theorem c5_echo_cex : read_mem8 cS5 0xE000 ≠ read_mem8 cS5 (0xE000 - 0x2000) := by decide

/-- With no pending enabled interrupt among bits 0-4, the selection comes up
empty. -/
lemma irq_pick_none (ir ie : Nat) (h : (ir &&& ie) &&& 31 = 0) : irq_pick ir ie = none := by
  have hbit : ∀ k, k < 5 → ¬ (ir.testBit k ∧ ie.testBit k) := by
    intro k hk hcon
    have h1 : ((ir &&& ie) &&& 31).testBit k = false := by
      rw [h]
      exact Nat.zero_testBit k
    rw [Nat.testBit_and, Nat.testBit_and] at h1
    have h31 : (31 : Nat).testBit k = true := by interval_cases k <;> decide
    simp [h31, hcon.1, hcon.2] at h1
  rw [irq_pick, if_neg (hbit 0 (by norm_num)), if_neg (hbit 1 (by norm_num)),
    if_neg (hbit 2 (by norm_num)), if_neg (hbit 3 (by norm_num)),
    if_neg (hbit 4 (by norm_num))]

/-- C9: when handle_interrupts runs with IME set but no interrupt both
requested and enabled among bits 0-4, it still owes 5 cycles and clears
need_to_do_interrupts, while PC, SP, the whole address space (so IF and IE),
IME, and all CPU registers are unchanged. -/
theorem c9_no_pending (gb : GB) (h1 : gb.ime = true)
    (h2 : (read_mem8 gb 0xFF0F &&& read_mem8 gb 0xFFFF) &&& 31 = 0)
    (h3 : gb.cycles_to_wait + 5 < 2 ^ 64) :
    (handle_interrupts gb).cycles_to_wait = gb.cycles_to_wait + 5 ∧
    (handle_interrupts gb).need_to_do_interrupts = false ∧
    (handle_interrupts gb).pc = gb.pc ∧
    (handle_interrupts gb).sp = gb.sp ∧
    (handle_interrupts gb).mem = gb.mem ∧
    (handle_interrupts gb).ime = gb.ime ∧
    (handle_interrupts gb).af = gb.af ∧
    (handle_interrupts gb).bc = gb.bc ∧
    (handle_interrupts gb).de = gb.de ∧
    (handle_interrupts gb).hl = gb.hl := by
  have hp := irq_pick_none _ _ h2
  have hw : w64 (gb.cycles_to_wait + 5) = gb.cycles_to_wait + 5 := by
    rw [w64]
    omega
  by_cases hh : read_mem8 gb 0xFF0F &&& read_mem8 gb 0xFFFF ≠ 0 <;>
    simp [handle_interrupts, hh, hp, irq_apply, h1, hw]

/-- Witness for C9 at a concrete state (IF and IE share only bit 7). -/
theorem c9_no_pending_witness :
    (wS9.ime = true ∧ (read_mem8 wS9 0xFF0F &&& read_mem8 wS9 0xFFFF) &&& 31 = 0 ∧
      wS9.cycles_to_wait + 5 < 2 ^ 64) ∧
    (handle_interrupts wS9).cycles_to_wait = wS9.cycles_to_wait + 5 :=
  ⟨by decide, (c9_no_pending wS9 (by decide) (by decide) (by decide)).1⟩

/-- C7: BIT b, r and BIT b, (HL) set H, clear N, and set Z to the complement
of bit b of the operand, for every bit index and operand: the uint1_t
truncation of the source's ~(reg >> b) is exactly that complement. -/
theorem c7_bit_flags (gb : GB) (b r : Nat) :
    (get_flag (op_bit_r gb b r) FL_H = true ∧
     get_flag (op_bit_r gb b r) FL_N = false ∧
     get_flag (op_bit_r gb b r) FL_Z = !(getR gb r).testBit b) ∧
    (get_flag (op_bit_ihl gb b) FL_H = true ∧
     get_flag (op_bit_ihl gb b) FL_N = false ∧
     get_flag (op_bit_ihl gb b) FL_Z = !(read_mem8 gb gb.hl).testBit b) := by
  have hshift : ∀ x : Nat, (x >>> b).testBit 0 = x.testBit b := by
    intro x
    rw [Nat.testBit_shiftRight x, Nat.add_zero]
  refine ⟨⟨?_, ?_, ?_⟩, ⟨?_, ?_, ?_⟩⟩ <;>
    simp only [op_bit_r, op_bit_ihl] <;>
    first
    | (show get_flag (set_flag _ FL_Z _) FL_H = _
       rw [get_flag_set_other _ _ _ _ (by decide) (by decide),
         get_flag_set_other _ _ _ _ (by decide) (by decide),
         get_flag_set_same _ _ _ (by decide) (by decide)])
    | (show get_flag (set_flag _ FL_Z _) FL_N = _
       rw [get_flag_set_other _ _ _ _ (by decide) (by decide),
         get_flag_set_same _ _ _ (by decide) (by decide)])
    | (show get_flag (set_flag _ FL_Z _) FL_Z = _
       rw [get_flag_set_same _ _ _ (by decide) (by decide), cNotLowBit_eq, hshift,
         getR_set_flag _ _ _ _ (by decide), getR_set_flag _ _ _ _ (by decide)])
    | (show get_flag (set_flag _ FL_Z _) FL_Z = _
       rw [get_flag_set_same _ _ _ (by decide) (by decide), cNotLowBit_eq, hshift,
         read_mem8_set_flag, set_flag_hl, read_mem8_set_flag, set_flag_hl])

/-- C3 at the failing input: with DIV reading 5 and 64 owed cycles (timer
disabled, LCD off), draining wait() leaves DIV at 0, not 6: the DIV bump is
routed through write_mem8, whose DIV case stores zero. -/
theorem c3_div_write_resets : read_mem8 fS3 0xFF04 = 5 ∧
    (wait fS3).cycle_count = 64 ∧ read_mem8 (wait fS3) 0xFF04 = 0 := by decide

/-- C4 at the failing input: with TAC = 0x04 (timer enabled, rate bits 00,
which the source comment maps to 256) and TIMA 0, a single M-cycle of wait()
already ticks TIMA to 1: C's truncated (0 - 1) % 4 = -1 makes the computed
period 1 << 0 = 1. -/
theorem c4_tima_period : read_mem8 fS4 0xFF05 = 0 ∧ clocks_per_timer_increment 0x04 = 1 ∧
    (wait fS4).cycle_count = 1 ∧ read_mem8 (wait fS4) 0xFF05 = 1 := by decide

/-- read_mem8 with the echo normalization named. -/
lemma read_mem8_eq (gb : GB) (a : Nat) :
    read_mem8 gb a =
      if resolveAddr a = 0xFF00 then joypadRead gb else gb.mem (resolveAddr a) % 256 := rfl

/-- The joypad byte only depends on joypad_mode and the button levels. -/
lemma joypadRead_congr (g1 g2 : GB) (hj : g1.joypad_mode = g2.joypad_mode)
    (hb : g1.buttons_pressed = g2.buttons_pressed) : joypadRead g1 = joypadRead g2 := by
  rw [joypadRead, joypadRead, hj, hb]

/-- A byte read only depends on the backing byte at the normalized address,
joypad_mode, and the button levels. -/
lemma read_mem8_congr (g1 g2 : GB) (a : Nat) (hj : g1.joypad_mode = g2.joypad_mode)
    (hb : g1.buttons_pressed = g2.buttons_pressed)
    (hm : g1.mem (resolveAddr a) = g2.mem (resolveAddr a)) :
    read_mem8 g1 a = read_mem8 g2 a := by
  rw [read_mem8_eq, read_mem8_eq]
  split
  · exact joypadRead_congr g1 g2 hj hb
  · rw [hm]

/-- The joypad byte fits in one byte. -/
lemma joypadRead_lt (gb : GB) : joypadRead gb < 256 := by
  have hb : ∀ (b : Bool) (k : Nat), k ≤ 3 → b2n b <<< k < 256 := by
    intro b k hk
    cases b
    · simp [b2n]
    · simp only [b2n, if_true, Nat.shiftLeft_eq, one_mul]
      have h2 : 2 ^ k ≤ 2 ^ 3 := Nat.pow_le_pow_right (by norm_num) hk
      omega
  rw [joypadRead]
  have h8 : (256 : Nat) = 2 ^ 8 := by norm_num
  rw [h8]
  apply Nat.or_lt_two_pow
  · apply Nat.or_lt_two_pow
    · apply Nat.or_lt_two_pow
      · decide
      · split <;> norm_num
    · split
      · apply Nat.or_lt_two_pow
        apply Nat.or_lt_two_pow
        apply Nat.or_lt_two_pow
        all_goals exact hb _ _ (by norm_num)
      · norm_num
  · split
    · apply Nat.or_lt_two_pow
      apply Nat.or_lt_two_pow
      apply Nat.or_lt_two_pow
      all_goals exact hb _ _ (by norm_num)
    · norm_num

/-- The DMA copy loop preserves the cycle debt. -/
lemma dmaCopy_cycles (src : Nat) : ∀ (n : Nat) (gb : GB),
    (dmaCopy src n gb).cycles_to_wait = gb.cycles_to_wait := by
  intro n
  induction n with
  | zero => intro gb; rfl
  | succ k ih => intro gb; simp only [dmaCopy]; exact ih gb

/-- The DMA copy loop preserves joypad_mode. -/
lemma dmaCopy_joypad (src : Nat) : ∀ (n : Nat) (gb : GB),
    (dmaCopy src n gb).joypad_mode = gb.joypad_mode := by
  intro n
  induction n with
  | zero => intro gb; rfl
  | succ k ih => intro gb; simp only [dmaCopy]; exact ih gb

/-- The DMA copy loop preserves the button levels. -/
lemma dmaCopy_buttons (src : Nat) : ∀ (n : Nat) (gb : GB),
    (dmaCopy src n gb).buttons_pressed = gb.buttons_pressed := by
  intro n
  induction n with
  | zero => intro gb; rfl
  | succ k ih => intro gb; simp only [dmaCopy]; exact ih gb

/-- The DMA copy loop only writes OAM bytes below its index. -/
lemma dmaCopy_mem_outside (src : Nat) : ∀ (n : Nat) (gb : GB) (a : Nat),
    (a < 0xFE00 ∨ 0xFE00 + n ≤ a) → (dmaCopy src n gb).mem a = gb.mem a := by
  intro n
  induction n with
  | zero => intro gb a _; rfl
  | succ k ih =>
    intro gb a ha
    simp only [dmaCopy, memUpd]
    rw [if_neg (by omega)]
    exact ih gb a (by omega)

/-- The source byte each DMA iteration reads never lies among the OAM bytes
already written. -/
lemma dma_src_resolved_out (src n : Nat) (hsrc : src < 256) (hn : n < 160) :
    resolveAddr (w16 ((src <<< 8) + n)) < 0xFE00 ∨
    0xFE00 + n ≤ resolveAddr (w16 ((src <<< 8) + n)) := by
  have h : src <<< 8 = src * 256 := by
    rw [Nat.shiftLeft_eq]
  simp only [resolveAddr, w16, h]
  split <;> omega

/-- After the DMA copy loop, each written OAM byte is the source byte as read
in the entry state. -/
lemma dmaCopy_mem_lo (src : Nat) (hsrc : src < 256) : ∀ (n : Nat), n ≤ 160 →
    ∀ (gb : GB) (j : Nat), j < n →
    (dmaCopy src n gb).mem (0xFE00 + j) = read_mem8 gb (w16 ((src <<< 8) + j)) % 256 := by
  intro n
  induction n with
  | zero => intro _ gb j hj; omega
  | succ k ih =>
    intro hn gb j hj
    simp only [dmaCopy, memUpd]
    by_cases hjk : j = k
    · subst hjk
      rw [if_pos rfl]
      have hcongr : read_mem8 (dmaCopy src j gb) (w16 ((src <<< 8) + j)) =
          read_mem8 gb (w16 ((src <<< 8) + j)) := by
        refine read_mem8_congr _ _ _ (dmaCopy_joypad src j gb)
          (dmaCopy_buttons src j gb) ?_
        exact dmaCopy_mem_outside src j gb _ (dma_src_resolved_out src j hsrc (by omega))
      rw [hcongr]
    · rw [if_neg (by omega)]
      exact ih (by omega) gb j (by omega)

/-- A write of X to the OAM DMA trigger register is do_dma. -/
lemma write_mem8_dma (gb : GB) (X : Nat) : write_mem8 gb 0xFF46 X = do_dma gb X := by
  rw [write_mem8]
  norm_num

/-- The resolved DMA read address is in range. -/
lemma w16_dma_addr (X i : Nat) (hX : X < 256) (hi : i < 160) :
    w16 ((X <<< 8) + i) = X * 256 + i := by
  have h : X <<< 8 = X * 256 := by
    rw [Nat.shiftLeft_eq]
  rw [w16, h]
  omega

/-- The resolved address of a DMA source byte is either the matching OAM
byte (source page 0xFE) or lies outside OAM entirely. -/
lemma dma_read_resolved (X i : Nat) (hX : X < 256) (hi : i < 160) :
    resolveAddr (X * 256 + i) = 0xFE00 + i ∨ resolveAddr (X * 256 + i) < 0xFE00 ∨
    0xFEA0 ≤ resolveAddr (X * 256 + i) := by
  simp only [resolveAddr]
  split <;> omega

/-- C6: writing any byte X to 0xFF46 copies the 0xA0 bytes starting at
X * 0x100 verbatim into OAM (every OAM byte then reads back equal to the
read of its source address, in the post-write state) and leaves the CPU
owing exactly 160 more cycles. -/
theorem c6_dma_copy (gb : GB) (X : Nat) (hX : X < 256)
    (hc : gb.cycles_to_wait + 160 < 2 ^ 64) :
    (∀ i, i < 0xA0 →
      read_mem8 (write_mem8 gb 0xFF46 X) (0xFE00 + i) =
      read_mem8 (write_mem8 gb 0xFF46 X) (X * 256 + i)) ∧
    (write_mem8 gb 0xFF46 X).cycles_to_wait = gb.cycles_to_wait + 160 := by
  rw [write_mem8_dma, do_dma]
  set gb1 : GB := { gb with cycles_to_wait := w64 (gb.cycles_to_wait + 160) } with hgb1
  constructor
  · intro i hi
    have hmemlo := dmaCopy_mem_lo X hX 0xa0 (by norm_num) gb1 i (by omega)
    rw [w16_dma_addr X i hX (by omega)] at hmemlo
    have hres1 : resolveAddr (0xFE00 + i) = 0xFE00 + i := by
      rw [resolveAddr, if_neg (by omega)]
    have hlhs : read_mem8 (dmaCopy X 0xa0 gb1) (0xFE00 + i) =
        read_mem8 gb1 (X * 256 + i) % 256 := by
      rw [read_mem8_eq, hres1, if_neg (by omega), hmemlo, Nat.mod_mod_of_dvd _ (dvd_refl 256)]
    rw [hlhs]
    by_cases hj : resolveAddr (X * 256 + i) = 0xFF00
    · rw [read_mem8_eq gb1, if_pos hj, read_mem8_eq (dmaCopy X 0xa0 gb1), if_pos hj,
        joypadRead_congr (dmaCopy X 0xa0 gb1) gb1 (dmaCopy_joypad X 0xa0 gb1)
          (dmaCopy_buttons X 0xa0 gb1)]
      exact Nat.mod_eq_of_lt (joypadRead_lt gb1)
    · rw [read_mem8_eq gb1, if_neg hj, read_mem8_eq (dmaCopy X 0xa0 gb1), if_neg hj]
      rcases dma_read_resolved X i hX (by omega) with hcase | hcase | hcase
      · rw [hcase]
        have := dmaCopy_mem_lo X hX 0xa0 (by norm_num) gb1 i (by omega)
        rw [w16_dma_addr X i hX (by omega)] at this
        rw [this, read_mem8_eq gb1, if_neg hj, hcase,
          Nat.mod_mod_of_dvd _ (dvd_refl 256), Nat.mod_mod_of_dvd _ (dvd_refl 256)]
      · rw [dmaCopy_mem_outside X 0xa0 gb1 _ (Or.inl hcase),
          Nat.mod_mod_of_dvd _ (dvd_refl 256)]
      · rw [dmaCopy_mem_outside X 0xa0 gb1 _ (Or.inr (by omega)),
          Nat.mod_mod_of_dvd _ (dvd_refl 256)]
  · rw [dmaCopy_cycles]
    show w64 (gb.cycles_to_wait + 160) = gb.cycles_to_wait + 160
    rw [w64]
    omega

/-- Witness for C6 at a concrete state and source page 0xC0. -/
theorem c6_dma_copy_witness :
    (0xC0 < 256 ∧ wS6.cycles_to_wait + 160 < 2 ^ 64) ∧
    ((∀ i, i < 0xA0 →
      read_mem8 (write_mem8 wS6 0xFF46 0xC0) (0xFE00 + i) =
      read_mem8 (write_mem8 wS6 0xFF46 0xC0) (0xC0 * 256 + i)) ∧
    (write_mem8 wS6 0xFF46 0xC0).cycles_to_wait = wS6.cycles_to_wait + 160) :=
  ⟨by decide, c6_dma_copy wS6 0xC0 (by decide) (by decide)⟩

/-- The DMA copy loop preserves BC. -/
lemma dmaCopy_bc (src : Nat) : ∀ (n : Nat) (gb : GB), (dmaCopy src n gb).bc = gb.bc := by
  intro n
  induction n with
  | zero => intro gb; rfl
  | succ k ih => intro gb; simp only [dmaCopy]; exact ih gb

/-- The DMA copy loop preserves DE. -/
lemma dmaCopy_de (src : Nat) : ∀ (n : Nat) (gb : GB), (dmaCopy src n gb).de = gb.de := by
  intro n
  induction n with
  | zero => intro gb; rfl
  | succ k ih => intro gb; simp only [dmaCopy]; exact ih gb

/-- The DMA copy loop preserves HL. -/
lemma dmaCopy_hl (src : Nat) : ∀ (n : Nat) (gb : GB), (dmaCopy src n gb).hl = gb.hl := by
  intro n
  induction n with
  | zero => intro gb; rfl
  | succ k ih => intro gb; simp only [dmaCopy]; exact ih gb

/-- The DMA copy loop preserves PC. -/
lemma dmaCopy_pc (src : Nat) : ∀ (n : Nat) (gb : GB), (dmaCopy src n gb).pc = gb.pc := by
  intro n
  induction n with
  | zero => intro gb; rfl
  | succ k ih => intro gb; simp only [dmaCopy]; exact ih gb

/-- The DMA copy loop preserves SP. -/
lemma dmaCopy_sp (src : Nat) : ∀ (n : Nat) (gb : GB), (dmaCopy src n gb).sp = gb.sp := by
  intro n
  induction n with
  | zero => intro gb; rfl
  | succ k ih => intro gb; simp only [dmaCopy]; exact ih gb

/-- write_mem8 never touches BC. -/
lemma write_mem8_bc (gb : GB) (a v : Nat) : (write_mem8 gb a v).bc = gb.bc := by
  rw [write_mem8]
  split
  · rfl
  split
  · rfl
  split
  · rfl
  split
  · rfl
  split
  · simp only [do_dma]
    rw [dmaCopy_bc]
  split
  · rfl
  rfl

/-- write_mem8 never touches DE. -/
lemma write_mem8_de (gb : GB) (a v : Nat) : (write_mem8 gb a v).de = gb.de := by
  rw [write_mem8]
  split
  · rfl
  split
  · rfl
  split
  · rfl
  split
  · rfl
  split
  · simp only [do_dma]
    rw [dmaCopy_de]
  split
  · rfl
  rfl

/-- write_mem8 never touches HL. -/
lemma write_mem8_hl (gb : GB) (a v : Nat) : (write_mem8 gb a v).hl = gb.hl := by
  rw [write_mem8]
  split
  · rfl
  split
  · rfl
  split
  · rfl
  split
  · rfl
  split
  · simp only [do_dma]
    rw [dmaCopy_hl]
  split
  · rfl
  rfl

/-- write_mem8 never touches PC. -/
lemma write_mem8_pc (gb : GB) (a v : Nat) : (write_mem8 gb a v).pc = gb.pc := by
  rw [write_mem8]
  split
  · rfl
  split
  · rfl
  split
  · rfl
  split
  · rfl
  split
  · simp only [do_dma]
    rw [dmaCopy_pc]
  split
  · rfl
  rfl

/-- write_mem8 never touches SP. -/
lemma write_mem8_sp (gb : GB) (a v : Nat) : (write_mem8 gb a v).sp = gb.sp := by
  rw [write_mem8]
  split
  · rfl
  split
  · rfl
  split
  · rfl
  split
  · rfl
  split
  · simp only [do_dma]
    rw [dmaCopy_sp]
  split
  · rfl
  rfl

/-- write_mem16 never touches the register file. -/
lemma write_mem16_regs (gb : GB) (a v : Nat) :
    (write_mem16 gb a v).af = gb.af ∧ (write_mem16 gb a v).bc = gb.bc ∧
    (write_mem16 gb a v).de = gb.de ∧ (write_mem16 gb a v).hl = gb.hl ∧
    (write_mem16 gb a v).pc = gb.pc ∧ (write_mem16 gb a v).sp = gb.sp := by
  refine ⟨?_, ?_, ?_, ?_, ?_, ?_⟩ <;>
    simp only [write_mem16, write_mem8_af, write_mem8_bc, write_mem8_de, write_mem8_hl,
      write_mem8_pc, write_mem8_sp]

/-- A writable, specialness-free address stores the byte verbatim. -/
lemma write_mem8_ok_mem (gb : GB) (a v : Nat) (h : okAddr a) :
    (write_mem8 gb a v).mem = memUpd gb.mem a v := by
  rw [write_mem8]
  rw [if_neg (by rcases h with h | h <;> omega)]
  rw [if_neg (by rcases h with h | h <;> omega)]
  rw [if_neg (by rcases h with h | h <;> omega)]
  by_cases hie : a = 0xFF0F ∨ a = 0xFFFF
  · rw [if_pos hie]
  · rw [if_neg hie, if_neg (by rcases h with h | h <;> omega)]
    rw [if_pos ?hw]
    case hw =>
      rw [is_writable, decide_eq_true_eq]
      push_neg at hie
      rcases h with h | h
      · exact Or.inl ⟨h.1, h.2⟩
      · exact Or.inr ⟨h.1, by omega⟩

/-- A writable, specialness-free address reads back the raw byte. -/
lemma read_mem8_ok (gb : GB) (a : Nat) (h : okAddr a) : read_mem8 gb a = gb.mem a % 256 := by
  rw [read_mem8_eq]
  have hr : resolveAddr a = a := by
    rw [resolveAddr, if_neg (by rcases h with h | h <;> omega)]
  rw [hr, if_neg (by rcases h with h | h <;> omega)]

/-- With machine-representable registers every qq pair is below 2 ^ 16. -/
lemma getQQ_lt (gb : GB) (qq : Nat) (hwf : Wf16 gb) : getQQ gb qq < 65536 := by
  unfold getQQ
  split
  · exact hwf.2.1
  · exact hwf.2.2.1
  · exact hwf.2.2.2.1
  · exact hwf.1

/-- A point store reads back its (truncated) byte. -/
lemma memUpd_self (m : Nat → Nat) (a v : Nat) : memUpd m a v a = v % 256 := by
  simp [memUpd]

/-- A point store leaves other cells alone. -/
lemma memUpd_other (m : Nat → Nat) (a v x : Nat) (h : x ≠ a) : memUpd m a v x = m x := by
  simp [memUpd, h]

/-- The state after PUSH qq: both stack bytes stored (little-endian), SP
dropped by 2, registers untouched. -/
lemma op_push_fields (gb : GB) (qq : Nat)
    (ha1 : okAddr (w16 (gb.sp + 65534))) (ha2 : okAddr (w16 (gb.sp + 65535))) :
    (op_push gb qq).mem =
      memUpd (memUpd gb.mem (w16 (gb.sp + 65534)) (getQQ gb qq))
        (w16 (gb.sp + 65535)) (getQQ gb qq >>> 8) ∧
    (op_push gb qq).sp = w16 (gb.sp + 65534) ∧
    (op_push gb qq).af = gb.af ∧ (op_push gb qq).bc = gb.bc ∧
    (op_push gb qq).de = gb.de ∧ (op_push gb qq).hl = gb.hl := by
  have ha12 : w16 (w16 (gb.sp + 65534) + 1) = w16 (gb.sp + 65535) := by
    simp only [w16]
    omega
  have hsp2 : (write_mem16 gb (w16 (gb.sp + 65534)) (getQQ gb qq)).sp = gb.sp :=
    (write_mem16_regs gb _ _).2.2.2.2.2
  refine ⟨?_, ?_, ?_, ?_, ?_, ?_⟩ <;>
    simp only [op_push, addPC, addCycles]
  · rw [write_mem16, ha12, write_mem8_ok_mem _ _ _ ha2, write_mem8_ok_mem _ _ _ ha1]
  · rw [hsp2]
  · rw [(write_mem16_regs gb _ _).1]
  · rw [(write_mem16_regs gb _ _).2.1]
  · rw [(write_mem16_regs gb _ _).2.2.1]
  · rw [(write_mem16_regs gb _ _).2.2.2.1]

/-- C8 (amended): PUSH qq then POP qq restores BC, DE, HL and SP and leaves
AF equal to its old value with the low nibble cleared, provided the two
stack bytes at SP - 2 and SP - 1 land in plainly-stored memory (VRAM/WRAM,
or the OAM-to-IE range away from the special I/O ports); with SP pointing
at ROM the pushed bytes are dropped and the round trip can clobber the pair
(see the counterexample). -/
theorem c8_push_pop (gb : GB) (qq : Nat) (hwf : Wf16 gb) (hqq : qq < 4)
    (ha1 : okAddr (w16 (gb.sp + 65534))) (ha2 : okAddr (w16 (gb.sp + 65535))) :
    (op_pop (op_push gb qq) qq).af = gb.af &&& 0xFFF0 ∧
    (op_pop (op_push gb qq) qq).bc = gb.bc ∧
    (op_pop (op_push gb qq) qq).de = gb.de ∧
    (op_pop (op_push gb qq) qq).hl = gb.hl ∧
    (op_pop (op_push gb qq) qq).sp = gb.sp := by
  obtain ⟨hm, hsp, haf, hbc, hde, hhl⟩ := op_push_fields gb qq ha1 ha2
  have hvlt : getQQ gb qq < 65536 := getQQ_lt gb qq hwf
  have hr2 : read_mem8 (op_push gb qq) (w16 ((op_push gb qq).sp + 1)) = getQQ gb qq >>> 8 := by
    rw [hsp]
    rw [show w16 (w16 (gb.sp + 65534) + 1) = w16 (gb.sp + 65535) by simp only [w16]; omega]
    rw [read_mem8_ok _ _ ha2, hm, memUpd_self]
    have hlt : getQQ gb qq >>> 8 < 256 := by
      rw [Nat.shiftRight_eq_div_pow]
      omega
    omega
  have hr1 : read_mem8 (op_push gb qq) (op_push gb qq).sp = getQQ gb qq % 256 := by
    rw [hsp, read_mem8_ok _ _ ha1, hm,
      memUpd_other _ _ _ _ (by simp only [w16]; omega), memUpd_self]
    omega
  have hrecomb : (read_mem8 (op_push gb qq) (w16 ((op_push gb qq).sp + 1)) <<< 8) |||
      read_mem8 (op_push gb qq) (op_push gb qq).sp = getQQ gb qq := by
    rw [hr1, hr2, hi_lo_recombine]
  have hspfin : w16 (w16 (gb.sp + 65534) + 2) = gb.sp := by
    have := hwf.2.2.2.2.1
    simp only [w16]
    omega
  have hwv : w16 (getQQ gb qq) = getQQ gb qq := by
    rw [w16]
    omega
  interval_cases qq <;>
    · simp only [op_pop, hrecomb]
      simp only [setQQ, addPC, addCycles]
      refine ⟨?_, ?_, ?_, ?_, ?_⟩ <;>
        simp only [haf, hbc, hde, hhl, hsp, hspfin, hwv] <;> rfl

/-- The PUSH/POP round trip at wS8: SP in WRAM, all side conditions hold and
the registers come back (AF with its low nibble cleared). -/
theorem c8_push_pop_witness :
    Wf16 wS8 ∧ 0 < 4 ∧ okAddr (w16 (wS8.sp + 65534)) ∧ okAddr (w16 (wS8.sp + 65535)) ∧
    ((op_pop (op_push wS8 0) 0).af = wS8.af &&& 0xFFF0 ∧
     (op_pop (op_push wS8 0) 0).bc = wS8.bc ∧
     (op_pop (op_push wS8 0) 0).de = wS8.de ∧
     (op_pop (op_push wS8 0) 0).hl = wS8.hl ∧
     (op_pop (op_push wS8 0) 0).sp = wS8.sp) :=
  ⟨by simp only [Wf16]; decide, by decide,
   by simp only [okAddr]; decide, by simp only [okAddr]; decide,
   c8_push_pop wS8 0 (by simp only [Wf16]; decide) (by decide)
     (by simp only [okAddr]; decide) (by simp only [okAddr]; decide)⟩

/-- With SP = 0x0102 pointing into ROM the pushed bytes are dropped, and the
PUSH BC / POP BC pair clobbers BC: the unqualified claim fails. -/
theorem c8_push_pop_cex : (op_pop (op_push cS8 0) 0).bc ≠ cS8.bc := by decide

/-- A false Boolean is not true. -/
lemma bit_ne_true {b : Bool} (h : b = false) : ¬ b = true := by
  rw [h]
  decide

/-- A pending-word bit that is set splits into its requested and enabled
components. -/
lemma pend_pos (ir ie k : Nat) (h : (ir &&& ie).testBit k = true) :
    ir.testBit k = true ∧ ie.testBit k = true := by
  rw [Nat.testBit_and] at h
  simpa using h

/-- A pending-word bit that is clear rules out the requested-and-enabled
conjunction for that interrupt. -/
lemma pend_neg (ir ie k : Nat) (h : (ir &&& ie).testBit k = false) :
    ¬ (ir.testBit k = true ∧ ie.testBit k = true) := by
  rw [Nat.testBit_and] at h
  rintro ⟨x, y⟩
  rw [x, y] at h
  simp at h

/-- A word whose bits 0-4 are all clear vanishes under the 0x1F mask. -/
lemma pend_none (x : Nat) (h0 : x.testBit 0 = false) (h1 : x.testBit 1 = false)
    (h2 : x.testBit 2 = false) (h3 : x.testBit 3 = false) (h4 : x.testBit 4 = false) :
    x &&& 31 = 0 := by
  apply Nat.eq_of_testBit_eq
  intro i
  rw [Nat.testBit_and, Nat.zero_testBit]
  rcases Nat.lt_or_ge i 5 with hi | hi
  · interval_cases i <;> simp [h0, h1, h2, h3, h4]
  · have h31 : (31 : Nat).testBit i = false := by
      rw [show (31 : Nat) = 2 ^ 5 - 1 by norm_num, Nat.testBit_two_pow_sub_one]
      exact decide_eq_false (by omega)
    simp [h31]

/-- With some bit of the 0x1F-masked pending word set, the source's
selection if-chain picks exactly the claimed highest-priority vector and
mask. -/
lemma irq_pick_spec (ir ie : Nat) (hp : (ir &&& ie) &&& 31 ≠ 0) :
    irq_pick ir ie = some (specPick (ir &&& ie)) := by
  by_cases h0 : (ir &&& ie).testBit 0 = true
  · obtain ⟨ha, hb⟩ := pend_pos _ _ _ h0
    simp only [irq_pick, specPick]
    rw [if_pos (And.intro ha hb), if_pos h0]
  rw [Bool.not_eq_true] at h0
  have hn0 := pend_neg _ _ _ h0
  by_cases h1 : (ir &&& ie).testBit 1 = true
  · obtain ⟨ha, hb⟩ := pend_pos _ _ _ h1
    simp only [irq_pick, specPick]
    rw [if_neg hn0, if_pos (And.intro ha hb), if_neg (bit_ne_true h0), if_pos h1]
  rw [Bool.not_eq_true] at h1
  have hn1 := pend_neg _ _ _ h1
  by_cases h2 : (ir &&& ie).testBit 2 = true
  · obtain ⟨ha, hb⟩ := pend_pos _ _ _ h2
    simp only [irq_pick, specPick]
    rw [if_neg hn0, if_neg hn1, if_pos (And.intro ha hb),
      if_neg (bit_ne_true h0), if_neg (bit_ne_true h1), if_pos h2]
  rw [Bool.not_eq_true] at h2
  have hn2 := pend_neg _ _ _ h2
  by_cases h3 : (ir &&& ie).testBit 3 = true
  · obtain ⟨ha, hb⟩ := pend_pos _ _ _ h3
    simp only [irq_pick, specPick]
    rw [if_neg hn0, if_neg hn1, if_neg hn2, if_pos (And.intro ha hb),
      if_neg (bit_ne_true h0), if_neg (bit_ne_true h1), if_neg (bit_ne_true h2), if_pos h3]
  rw [Bool.not_eq_true] at h3
  have hn3 := pend_neg _ _ _ h3
  by_cases h4 : (ir &&& ie).testBit 4 = true
  · obtain ⟨ha, hb⟩ := pend_pos _ _ _ h4
    simp only [irq_pick, specPick]
    rw [if_neg hn0, if_neg hn1, if_neg hn2, if_neg hn3, if_pos (And.intro ha hb),
      if_neg (bit_ne_true h0), if_neg (bit_ne_true h1), if_neg (bit_ne_true h2),
      if_neg (bit_ne_true h3)]
  rw [Bool.not_eq_true] at h4
  exact absurd (pend_none _ h0 h1 h2 h3 h4) hp

/-- The DMA copy loop never touches HALTED. -/
lemma dmaCopy_halted (src : Nat) :
    ∀ (n : Nat) (gb : GB), (dmaCopy src n gb).halted = gb.halted := by
  intro n
  induction n with
  | zero => intro gb; rfl
  | succ k ih => intro gb; simp only [dmaCopy]; exact ih gb

/-- write_mem8 never touches HALTED. -/
lemma write_mem8_halted (gb : GB) (a v : Nat) : (write_mem8 gb a v).halted = gb.halted := by
  rw [write_mem8]
  split
  · rfl
  split
  · rfl
  split
  · rfl
  split
  · rfl
  split
  · simp only [do_dma]
    rw [dmaCopy_halted]
  split
  · rfl
  rfl

/-- write_mem16 never touches HALTED. -/
lemma write_mem16_halted (gb : GB) (a v : Nat) :
    (write_mem16 gb a v).halted = gb.halted := by
  rw [write_mem16, write_mem8_halted, write_mem8_halted]

/-- The dispatch body never touches HALTED. -/
lemma irq_dispatch_halted (gb : GB) (vec mask ir : Nat) :
    (irq_dispatch gb vec mask ir).halted = gb.halted := by
  rw [irq_dispatch]
  dsimp only
  rw [write_mem16_halted]

/-- Applying an optional interrupt never touches HALTED. -/
lemma irq_apply_halted (gb : GB) (p : Option (Nat × Nat)) (ir : Nat) :
    (irq_apply gb p ir).halted = gb.halted := by
  match p with
  | none => rfl
  | some (vec, mask) => exact irq_dispatch_halted gb vec mask ir

/-- The dispatch body collapsed into a single push over the state with the
IF bit cleared and IME off: write_mem16 leaves SP alone, so the final SP is
the decremented original one. -/
lemma irq_dispatch_fields (gb : GB) (vec mask ir : Nat) :
    irq_dispatch gb vec mask ir =
      { write_mem16
          { gb with mem := memUpd gb.mem 0xFF0F (ir &&& (255 ^^^ mask)), ime := false }
          (w16 (gb.sp + 65534)) gb.pc with
        sp := w16 (gb.sp + 65534), pc := vec } := by
  rw [irq_dispatch]
  dsimp only
  rw [(write_mem16_regs _ _ _).2.2.2.2.2]

/-- C2: whenever any bit is set in IF AND IE, handle_interrupts clears
HALTED; and when moreover IME is set and some interrupt is both requested
and enabled among bits 0-4, it performs exactly the dispatch the claim
describes: highest-priority selection in the order VBlank, LCD STAT,
Timer, Serial, Joypad, that IF bit cleared, IME cleared, the old PC pushed
little-endian at SP - 2 (SP dropped by 2), PC set to the matching vector
0x40/0x48/0x50/0x58/0x60, 5 more cycles owed and need_to_do_interrupts
cleared. -/
theorem c2_dispatch (gb : GB) :
    (read_mem8 gb 0xFF0F &&& read_mem8 gb 0xFFFF ≠ 0 →
      (handle_interrupts gb).halted = false) ∧
    (gb.ime = true →
      (read_mem8 gb 0xFF0F &&& read_mem8 gb 0xFFFF) &&& 31 ≠ 0 →
      handle_interrupts gb = specDispatch gb) := by
  constructor
  · intro hne
    simp only [handle_interrupts]
    rw [if_pos hne]
    by_cases hi : gb.ime = true
    · rw [if_neg (not_not_intro hi)]
      dsimp only
      rw [irq_apply_halted]
    · rw [if_pos hi]
  · intro hime hp
    have hne : read_mem8 gb 0xFF0F &&& read_mem8 gb 0xFFFF ≠ 0 := by
      intro h0
      exact hp (by simp [h0])
    have hpk := irq_pick_spec _ _ hp
    obtain ⟨v, m, hvm⟩ :
        ∃ v m, specPick (read_mem8 gb 0xFF0F &&& read_mem8 gb 0xFFFF) = (v, m) :=
      ⟨_, _, rfl⟩
    rw [hvm] at hpk
    simp only [handle_interrupts]
    rw [if_pos hne, hpk, if_neg (not_not_intro hime)]
    have happ : irq_apply { gb with halted := false } (some (v, m)) (read_mem8 gb 0xFF0F) =
        irq_dispatch { gb with halted := false } v m (read_mem8 gb 0xFF0F) := rfl
    rw [happ, irq_dispatch_fields]
    simp only [specDispatch]
    rw [hvm]

/-- The dispatch at wS2: the Timer interrupt is requested and enabled, so
HALTED is cleared, and with IME on handle_interrupts agrees with the
claimed dispatch. -/
theorem c2_dispatch_witness :
    (read_mem8 wS2 0xFF0F &&& read_mem8 wS2 0xFFFF ≠ 0 ∧
      (handle_interrupts wS2).halted = false) ∧
    (wS2.ime = true ∧
      (read_mem8 wS2 0xFF0F &&& read_mem8 wS2 0xFFFF) &&& 31 ≠ 0 ∧
      handle_interrupts wS2 = specDispatch wS2) :=
  ⟨⟨by decide, (c2_dispatch wS2).1 (by decide)⟩,
   rfl, by decide, (c2_dispatch wS2).2 rfl (by decide)⟩
